import Mathlib

/-!
# Flappy bird (flappy-bird-cpp.cpp): entity simulation, collision/scoring and game flow

A shallow embedding of `source/flappy-bird-cpp.cpp` and the constants of `source/lcd.h`.

* `uint16_t` members are natural numbers; every store into one is reduced modulo `2^16`.
* `int16_t` members are integers; every store into one goes through `toInt16`, the
  two's complement reduction modulo `2^16`.
* Arithmetic inside an expression is the C++ arithmetic on `int` (32 bits), which none of
  the expressions of this program can overflow, so it is exact arithmetic here.
* `std::rand()` is an external source: `rnd k` is the value returned by the `k`-th call
  since start-up, and the number of calls made so far is threaded through the state.
* `GPIO_PinRead(...) == 0` is the per-frame input `buttonPressed`.
* Drawing (`draw`, `LCD_Clear`, `LCD_Puts`, `LCD_GramRefresh`) does not write any of the
  simulation variables and is left out of the frame step.
-/

namespace FlappyBird

/-! ## Machine integers -/

/-- Value of `static_cast<uint16_t>(z)` for an `int` value `z`. -/
def toUInt16 (z : Int) : Nat := (z % 65536).toNat

/-- Value of `static_cast<int16_t>(z)` for an `int` value `z` (two's complement). -/
def toInt16 (z : Int) : Int := (z + 32768) % 65536 - 32768

/-- Range of an `int16_t` variable. -/
def IsInt16 (z : Int) : Prop := -32768 ≤ z ∧ z ≤ 32767

instance (z : Int) : Decidable (IsInt16 z) := by
  unfold IsInt16
  infer_instance

/-- Range of a `uint16_t` variable. -/
def IsUInt16 (n : Nat) : Prop := n < 65536

instance (n : Nat) : Decidable (IsUInt16 n) := by
  unfold IsUInt16
  infer_instance

/-! ## lcd.h -/

/-- `#define LCD_WIDTH 160`. -/
def LCD_WIDTH : Nat := 160

/-- `#define LCD_HEIGHT 128`. -/
def LCD_HEIGHT : Nat := 128

/-- `class Image`: the width and height of a bitmap (the pixel data is not modelled). -/
structure Image where
  m_width : Nat
  m_height : Nat
  deriving DecidableEq, Repr

/-- `Image::getWidth`. -/
def Image.getWidth (i : Image) : Nat := i.m_width

/-- `Image::getHeight`. -/
def Image.getHeight (i : Image) : Nat := i.m_height

/-! ## Enumerations -/

/-- `enum GameState`. -/
inductive GameState where
  | titleScreen
  | playing
  | gameOver
  deriving DecidableEq, Repr

/-- `enum PipeInteraction`. -/
inductive PipeInteraction where
  | none
  | colliding
  | passingThrough
  deriving DecidableEq, Repr

/-- Underlying integer of a `PipeInteraction` enumerator: `none = 0`, `colliding = 1`,
`passingThrough = 2`. -/
def PipeInteraction.toNat : PipeInteraction → Nat
  | .none => 0
  | .colliding => 1
  | .passingThrough => 2

/-! ## The random source -/

/-- `std::rand()`: with `calls` calls made so far, returns the next value of the source
and the new number of calls. -/
def rand (rnd : Nat → Nat) (calls : Nat) : Nat × Nat := (rnd calls, calls + 1)

/-! ## class Player -/

/-- `class Player`: `m_xPos` and `m_yPos` (both `uint16_t`). -/
structure Player where
  m_xPos : Nat
  m_yPos : Nat
  deriving DecidableEq, Repr

namespace Player

/-- `s_playerImage{ yellowbird_midflap_25x17, 25, 17 }`. -/
def s_playerImage : Image := ⟨25, 17⟩

/-- `s_gravity{ 3 }`. -/
def s_gravity : Nat := 3

/-- `s_initialYPos{ 47 }`. -/
def s_initialYPos : Nat := 47

/-- `Player player{}`: the default member initialisers `m_xPos{ 20 }`,
`m_yPos{ s_initialYPos }`. -/
def new : Player := ⟨20, s_initialYPos⟩

/-- `Player::fall`. -/
def fall (p : Player) : Player :=
  if (p.m_yPos : Int) < (LCD_HEIGHT : Int) - (s_playerImage.getHeight : Int) then
    { p with m_yPos := toUInt16 ((p.m_yPos : Int) + (s_gravity : Int)) }
  else p

/-- `Player::fly`. -/
def fly (p : Player) : Player :=
  if p.m_yPos > s_gravity then
    { p with m_yPos := toUInt16 ((p.m_yPos : Int) - (s_gravity : Int)) }
  else p

/-- `Player::reset`. -/
def reset (p : Player) : Player := { p with m_yPos := s_initialYPos }

/-- `Player::getX`. -/
def getX (p : Player) : Nat := p.m_xPos

/-- `Player::getY`. -/
def getY (p : Player) : Nat := p.m_yPos

/-- `Player::getWidth`. -/
def getWidth (_p : Player) : Nat := s_playerImage.getWidth

/-- `Player::getHeight`. -/
def getHeight (_p : Player) : Nat := s_playerImage.getHeight

end Player

/-! ## class PipeGate -/

/-- `class PipeGate`: `m_xOffset` (`int16_t`), `m_gateY` (`uint16_t`, the top edge of the
gap) and `m_isScored`. -/
structure PipeGate where
  m_xOffset : Int
  m_gateY : Nat
  m_isScored : Bool
  deriving DecidableEq, Repr

namespace PipeGate

/-- `s_pipeImage{ pipe_green_21x128, 21, 128 }`. -/
def s_pipeImage : Image := ⟨21, 128⟩

/-- `s_gapHeight{ 45 }`. -/
def s_gapHeight : Nat := 45

/-- `s_minMargin{ 20 }`. -/
def s_minMargin : Nat := 20

/-- `PipeGate::getRandomInRange`, given the value `r` that `std::rand()` returns:
`static_cast<uint16_t>(min + (r % (max - min + 1)))`, with the truncating remainder of
C++. -/
def getRandomInRange (min max : Nat) (r : Nat) : Nat :=
  toUInt16 ((min : Int) + Int.tmod (r : Int) ((max : Int) - (min : Int) + 1))

/-- `PipeGate::reset(startX)`: draws the gap position from the random source, stores the
start offset and clears the scored flag. Returns the gate and the new number of calls
made to the random source. -/
def reset (rnd : Nat → Nat) (calls : Nat) (_g : PipeGate) (startX : Int) : PipeGate × Nat :=
  let maxValidY : Nat := toUInt16 ((LCD_HEIGHT : Int) - (s_gapHeight : Int) - (s_minMargin : Int))
  let r := rand rnd calls
  ({ m_gateY := getRandomInRange s_minMargin maxValidY r.1,
     m_xOffset := toInt16 startX,
     m_isScored := false }, r.2)

/-- `PipeGate::PipeGate(xOffset)`: the constructor calls `reset(xOffset)` on the
value-initialised members. -/
def new (rnd : Nat → Nat) (calls : Nat) (xOffset : Int) : PipeGate × Nat :=
  reset rnd calls ⟨0, 0, false⟩ xOffset

/-- `PipeGate::update`. -/
def update (rnd : Nat → Nat) (calls : Nat) (g : PipeGate) : PipeGate × Nat :=
  let moveSpeed : Int := 2
  let g1 : PipeGate := { g with m_xOffset := toInt16 (g.m_xOffset - moveSpeed) }
  if g1.m_xOffset ≤ -(toInt16 (s_pipeImage.getWidth : Int)) then
    reset rnd calls g1 (LCD_WIDTH : Int)
  else (g1, calls)

/-- The condition of the first `if` of `PipeGate::checkInteraction`: the player is entirely
to the right of `pipeRight` or entirely to the left of `pipeLeft`. -/
def horizontalMiss (g : PipeGate) (player : Player) : Bool :=
  let pipeRight : Nat := toUInt16 (g.m_xOffset + (s_pipeImage.getWidth : Int))
  let pipeLeft : Nat := toUInt16 g.m_xOffset
  decide (player.getX > pipeRight) || decide (player.getX + player.getWidth < pipeLeft)

/-- `PipeGate::checkInteraction`: the result and the gate after the call. -/
def checkInteraction (g : PipeGate) (player : Player) : PipeInteraction × PipeGate :=
  if horizontalMiss g player then (PipeInteraction.none, g)
  else
    let upperCollision : Bool := decide (player.getY < g.m_gateY)
    let lowerCollision : Bool :=
      decide (player.getY + player.getHeight > g.m_gateY + s_gapHeight)
    if upperCollision || lowerCollision then (PipeInteraction.colliding, g)
    else if g.m_isScored then (PipeInteraction.none, g)
    else (PipeInteraction.passingThrough, { g with m_isScored := true })

/-- The condition of the `if` of `PipeGate::update`, on the gate before the call: the
decremented offset is at most minus the pipe width, so `update` calls `reset(LCD_WIDTH)`. -/
def updateRespawns (g : PipeGate) : Bool :=
  decide (toInt16 (g.m_xOffset - 2) ≤ -(toInt16 (s_pipeImage.getWidth : Int)))

end PipeGate

/-- A call made on a gate between two resets. -/
inductive GateCall where
  | checkInteraction (player : Player)
  | update
  deriving DecidableEq, Repr

namespace PipeGate

/-- The results of the `checkInteraction` calls of a sequence of calls on one gate, in
order, with the gate and the number of random calls after the sequence. -/
def runCalls (rnd : Nat → Nat) : Nat → PipeGate → List GateCall →
    List PipeInteraction × PipeGate × Nat
  | calls, g, [] => ([], g, calls)
  | calls, g, GateCall.checkInteraction p :: rest =>
      let r := runCalls rnd calls (g.checkInteraction p).2 rest
      ((g.checkInteraction p).1 :: r.1, r.2)
  | calls, g, GateCall.update :: rest =>
      runCalls rnd (update rnd calls g).2 (update rnd calls g).1 rest

/-- Whether some `update` of the sequence of calls respawns the gate. -/
def anyRespawn (rnd : Nat → Nat) : Nat → PipeGate → List GateCall → Bool
  | _, _, [] => false
  | calls, g, GateCall.checkInteraction p :: rest =>
      anyRespawn rnd calls (g.checkInteraction p).2 rest
  | calls, g, GateCall.update :: rest =>
      g.updateRespawns || anyRespawn rnd (update rnd calls g).2 (update rnd calls g).1 rest

end PipeGate

/-! ## class ScrollingBackground -/

/-- `class ScrollingBackground`: `m_offset` (`int16_t`). -/
structure ScrollingBackground where
  m_offset : Int
  deriving DecidableEq, Repr

namespace ScrollingBackground

/-- `s_bgImage{ background_320x128, 320, 128 }`. -/
def s_bgImage : Image := ⟨320, 128⟩

/-- `ScrollingBackground::update`. -/
def update (b : ScrollingBackground) : ScrollingBackground :=
  let scrollSpeed : Int := 1
  let b1 : ScrollingBackground := { m_offset := toInt16 (b.m_offset - scrollSpeed) }
  if b1.m_offset ≤ -(toInt16 ((s_bgImage.getWidth / 2 : Nat) : Int)) then
    { m_offset := toInt16 (b1.m_offset + ((s_bgImage.getWidth / 2 : Nat) : Int)) }
  else b1

end ScrollingBackground

/-! ## main -/

/-- The local variables of `main` that carry the simulation from frame to frame, and the
number of calls made to `std::rand()` so far. -/
structure Game where
  score : Nat
  gameState : GameState
  background : ScrollingBackground
  player : Player
  pipeGate1 : PipeGate
  pipeGate2 : PipeGate
  randCalls : Nat
  deriving DecidableEq, Repr

/-- The operand merge `pipeGate1.checkInteraction(player) | pipeGate2.checkInteraction(player)`:
both enumerators are promoted to `int` and combined by bitwise or. -/
def gateInteraction (a b : PipeInteraction) : Nat := a.toNat ||| b.toNat

/-- The state of `main` on entry to the `while (1)` loop: score 0, title screen, the
default background and player, `pipeGate1{ 70 }` and `pipeGate2{}` (whose default argument
is `LCD_WIDTH`), constructed in this order. -/
def Game.start (rnd : Nat → Nat) : Game :=
  let g1 := PipeGate.new rnd 0 70
  let g2 := PipeGate.new rnd g1.2 (LCD_WIDTH : Int)
  { score := 0,
    gameState := GameState.titleScreen,
    background := ⟨0⟩,
    player := Player.new,
    pipeGate1 := g1.1,
    pipeGate2 := g2.1,
    randCalls := g2.2 }

/-- The player after `if (buttonPressed) player.fly(); else player.fall();`. -/
def movedPlayer (s : Game) (buttonPressed : Bool) : Player :=
  if buttonPressed then s.player.fly else s.player.fall

/-- The first gate and the number of random calls after `pipeGate1.update()`. -/
def updatedGate1 (rnd : Nat → Nat) (s : Game) : PipeGate × Nat :=
  PipeGate.update rnd s.randCalls s.pipeGate1

/-- The second gate and the number of random calls after `pipeGate2.update()`, which runs
after `pipeGate1.update()`. -/
def updatedGate2 (rnd : Nat → Nat) (s : Game) : PipeGate × Nat :=
  PipeGate.update rnd (updatedGate1 rnd s).2 s.pipeGate2

/-- The call `pipeGate1.checkInteraction(player)` of a playing frame: it sees the moved
player and the updated gate. -/
def interaction1 (rnd : Nat → Nat) (s : Game) (buttonPressed : Bool) :
    PipeInteraction × PipeGate :=
  (updatedGate1 rnd s).1.checkInteraction (movedPlayer s buttonPressed)

/-- The call `pipeGate2.checkInteraction(player)` of a playing frame. -/
def interaction2 (rnd : Nat → Nat) (s : Game) (buttonPressed : Bool) :
    PipeInteraction × PipeGate :=
  (updatedGate2 rnd s).1.checkInteraction (movedPlayer s buttonPressed)

/-- The body of `case GameState::playing`. -/
def playingFrame (rnd : Nat → Nat) (s : Game) (buttonPressed : Bool) : Game :=
  let c1 := interaction1 rnd s buttonPressed
  let c2 := interaction2 rnd s buttonPressed
  let s1 : Game :=
    { s with player := movedPlayer s buttonPressed, pipeGate1 := c1.2, pipeGate2 := c2.2,
             background := s.background.update, randCalls := (updatedGate2 rnd s).2 }
  let merged := gateInteraction c1.1 c2.1
  if merged = PipeInteraction.colliding.toNat then
    { s1 with gameState := GameState.gameOver }
  else if merged = PipeInteraction.passingThrough.toNat then
    { s1 with score := (s1.score + 1) % 65536 }
  else s1

/-- The body of `case GameState::gameOver`. -/
def gameOverFrame (rnd : Nat → Nat) (s : Game) (buttonPressed : Bool) : Game :=
  if buttonPressed then
    let r1 := PipeGate.reset rnd s.randCalls s.pipeGate1 70
    let r2 := PipeGate.reset rnd r1.2 s.pipeGate2 (LCD_WIDTH : Int)
    { s with gameState := GameState.playing, score := 0, player := s.player.reset,
             pipeGate1 := r1.1, pipeGate2 := r2.1, randCalls := r2.2 }
  else s

/-- The body of `case GameState::titleScreen`. -/
def titleScreenFrame (s : Game) (buttonPressed : Bool) : Game :=
  if buttonPressed then { s with gameState := GameState.playing } else s

/-- One iteration of the `while (1)` loop of `main`. -/
def frame (rnd : Nat → Nat) (s : Game) (buttonPressed : Bool) : Game :=
  match s.gameState with
  | GameState.titleScreen => titleScreenFrame s buttonPressed
  | GameState.playing => playingFrame rnd s buttonPressed
  | GameState.gameOver => gameOverFrame rnd s buttonPressed

/-- The state after the frames whose button samples are `buttons`, in order. -/
def run (rnd : Nat → Nat) (s : Game) (buttons : List Bool) : Game :=
  buttons.foldl (frame rnd) s

/-- States that `main` can be in at the top of the loop, for the random source `rnd`. -/
inductive Reachable (rnd : Nat → Nat) : Game → Prop where
  | start : Reachable rnd (Game.start rnd)
  | frame (s : Game) (buttonPressed : Bool) :
      Reachable rnd s → Reachable rnd (frame rnd s buttonPressed)

/-- The merge rule as the specification words it: `colliding` dominates, then
`passingThrough`, then `none`. -/
def priorityMerge : PipeInteraction → PipeInteraction → PipeInteraction
  | PipeInteraction.colliding, _ => PipeInteraction.colliding
  | _, PipeInteraction.colliding => PipeInteraction.colliding
  | PipeInteraction.passingThrough, _ => PipeInteraction.passingThrough
  | _, PipeInteraction.passingThrough => PipeInteraction.passingThrough
  | PipeInteraction.none, PipeInteraction.none => PipeInteraction.none

/-- The button samples that hold the button for one frame (leaving the title screen) and
then release it for `n` frames. -/
def pressThenRelease (n : Nat) : List Bool := true :: List.replicate n false

/-- Button samples `true, false, true, ...` of length `n`. -/
def alternate : Nat → List Bool
  | 0 => []
  | n + 1 => (n % 2 == 0) :: alternate n

/-- A random source whose every draw is `43`, which puts every gap at its lowest position
(`m_gateY = 63`). -/
def lowGaps : Nat → Nat := fun _ => 43

/-- Button samples that take the player through the first gate of `lowGaps` and then let
it fall: leave the title screen, fall for 14 frames, hover for 21 frames while the gate
passes and fall for 9 more frames. -/
def fallToFloor : List Bool :=
  pressThenRelease 14 ++ alternate 21 ++ List.replicate 9 false

/-- The two gates keep their distance: the second is 90 ahead of the first, or the first
is 92 ahead of the second, and the trailing one is at an even offset on its way from the
start offset to `-20`. -/
def GatesStaggered (g1 g2 : PipeGate) : Prop :=
  (g2.m_xOffset = g1.m_xOffset + 90 ∧ -20 ≤ g1.m_xOffset ∧ g1.m_xOffset ≤ 70
      ∧ g1.m_xOffset % 2 = 0)
    ∨ (g1.m_xOffset = g2.m_xOffset + 92 ∧ -20 ≤ g2.m_xOffset ∧ g2.m_xOffset ≤ 68
      ∧ g2.m_xOffset % 2 = 0)

instance (g1 g2 : PipeGate) : Decidable (GatesStaggered g1 g2) := by
  unfold GatesStaggered
  infer_instance

/-- A game-over state with score 7. -/
def gameOverWithScore7 : Game :=
  { score := 7,
    gameState := GameState.gameOver,
    background := ⟨-113⟩,
    player := ⟨20, 8⟩,
    pipeGate1 := ⟨44, 63, true⟩,
    pipeGate2 := ⟨134, 25, false⟩,
    randCalls := 9 }

/-- A playing state whose score is the largest `uint16_t` value and whose first gate
reaches the player in the next frame with the player inside the gap. -/
def playingWithMaxScore : Game :=
  { score := 65535,
    gameState := GameState.playing,
    background := ⟨0⟩,
    player := ⟨20, 47⟩,
    pipeGate1 := ⟨46, 40, false⟩,
    pipeGate2 := ⟨136, 40, false⟩,
    randCalls := 2 }

/-- A playing state whose first gate reaches the player in the next frame (offset 46 before
`update`, 44 after it) and whose gap starts at 50, three rows below the player's
`m_yPos = 47`. -/
def gateAboutToArrive : Game :=
  { score := 0,
    gameState := GameState.playing,
    background := ⟨-12⟩,
    player := ⟨20, 47⟩,
    pipeGate1 := ⟨46, 50, false⟩,
    pipeGate2 := ⟨136, 33, false⟩,
    randCalls := 2 }

/-- The characters that the conversion `"%03u"` of `printf` produces for the value `n`: its
decimal digits, padded on the left with `'0'` to a width of at least three. -/
def printfU03 (n : Nat) : List Char :=
  List.replicate (3 - (Nat.toDigits 10 n).length) '0' ++ Nat.toDigits 10 n

/-- The characters that `snprintf(buffer, size, ...)` stores before the terminating null
character: at most `size - 1` characters of the formatted output. -/
def snprintf (size : Nat) (formatted : List Char) : List Char :=
  formatted.take (size - 1)

/-- The text in `char scoreString[4]` after
`snprintf(scoreString, sizeof(scoreString), "%03u", score)`. -/
def scoreString (score : Nat) : List Char := snprintf 4 (printfU03 score)

/-- The text that a frame passes to `LCD_Puts`: the score on entry to the frame, in the
playing and game-over frames; the title screen draws no score. -/
def frameScoreText (s : Game) : Option (List Char) :=
  match s.gameState with
  | GameState.titleScreen => none
  | GameState.playing => some (scoreString s.score)
  | GameState.gameOver => some (scoreString s.score)

/-- The number that a string of decimal digit characters denotes. -/
def decimalValue (text : List Char) : Nat :=
  text.foldl (fun acc c => 10 * acc + (c.toNat - 48)) 0

/-- Whether the button is pressed in every playing frame of the frames `buttons` run from
the state `s`. -/
def heldWhilePlaying (rnd : Nat → Nat) : Game → List Bool → Bool
  | _, [] => true
  | s, b :: rest =>
      (decide (s.gameState ≠ GameState.playing) || b)
        && heldWhilePlaying rnd (frame rnd s b) rest

/-- Whether the button is released in every playing frame of the frames `buttons` run from
the state `s`. -/
def releasedWhilePlaying (rnd : Nat → Nat) : Game → List Bool → Bool
  | _, [] => true
  | s, b :: rest =>
      (decide (s.gameState ≠ GameState.playing) || !b)
        && releasedWhilePlaying rnd (frame rnd s b) rest

/-- A random source whose every draw is `0`, which puts every gap at its highest position
(`m_gateY = 20`). -/
def highGaps : Nat → Nat := fun _ => 0

/-- A random source whose every draw is `20`, which puts every gap at `m_gateY = 40`. -/
def midGaps : Nat → Nat := fun _ => 20

/-- Button samples that take the player through the first gate of `highGaps` and then up:
leave the title screen, hover for 35 frames while the gate arrives and passes, and hold
the button for 14 more frames. -/
def climbToCeiling : List Bool :=
  true :: (alternate 35 ++ List.replicate 14 true)

/-- Button samples that bring the player into the first gate of `midGaps`: leave the title
screen and hover for 12 frames. The next frame, with the button released, is the first
frame in which the gate is over the player. -/
def hoverToGate : List Bool := true :: alternate 12

/-- The relation between the player and the gates that holds as long as the button is
pressed in every playing frame: the player has risen 3 rows for every 2 columns that the
first gate has advanced since the last (re)start, it is not above row 8, and the game is
over once it is at row 8. -/
def HeldInvariant (s : Game) : Prop :=
  s.player.m_xPos = 20
    ∧ 3 * s.pipeGate1.m_xOffset = 2 * (s.player.m_yPos : Int) + 116
    ∧ 8 ≤ s.player.m_yPos ∧ s.player.m_yPos ≤ 47
    ∧ s.pipeGate2.m_xOffset = s.pipeGate1.m_xOffset + 90
    ∧ 20 ≤ s.pipeGate1.m_gateY
    ∧ (s.player.m_yPos = 8 → s.gameState = GameState.gameOver)

/-- The relation between the player and the gates that holds as long as the button is
released in every playing frame: the player has fallen 3 rows for every 2 columns that the
first gate has advanced since the last (re)start, it is not below row 92, and the game is
over once it is at row 92. -/
def ReleasedInvariant (s : Game) : Prop :=
  s.player.m_xPos = 20
    ∧ 3 * s.pipeGate1.m_xOffset + 2 * (s.player.m_yPos : Int) = 304
    ∧ 47 ≤ s.player.m_yPos ∧ s.player.m_yPos ≤ 92
    ∧ s.pipeGate2.m_xOffset = s.pipeGate1.m_xOffset + 90
    ∧ s.pipeGate1.m_gateY ≤ 63
    ∧ (s.player.m_yPos = 92 → s.gameState = GameState.gameOver)

/-- What the horizontal test of `checkInteraction` does for one gate and one player: it
rejects exactly when the player's left edge is beyond the pipe's right edge or the
player's right edge is before the pipe's left edge (signed edges); a rejected call
returns `none` and leaves the gate unchanged, and a call that is not rejected goes on to
the vertical test. -/
def HorizontalRule (g : PipeGate) (p : Player) : Prop :=
  (g.horizontalMiss p = true
      ↔ ((p.getX : Int) > g.m_xOffset + (PipeGate.s_pipeImage.getWidth : Int)
          ∨ (p.getX : Int) + (p.getWidth : Int) < g.m_xOffset))
    ∧ (g.horizontalMiss p = true → g.checkInteraction p = (PipeInteraction.none, g))
    ∧ (g.horizontalMiss p = false →
        (g.checkInteraction p).1 = PipeInteraction.colliding
          ∨ ((g.checkInteraction p).1 = PipeInteraction.passingThrough
              ∧ g.m_isScored = false)
          ∨ ((g.checkInteraction p).1 = PipeInteraction.none ∧ g.m_isScored = true))

/-- The respawn rule of `update` for one gate: the offset is lowered by 2; if the lowered
offset is at most `-21` the gate respawns at offset `LCD_WIDTH = 160`, unscored, with its
gap drawn anew from the random source; if it is above `-21` the offset after the call is
the old offset minus 2, the gap and the scored flag are unchanged and the random source
is not called. -/
def RespawnRule (rnd : Nat → Nat) (calls : Nat) (g : PipeGate) : Prop :=
  (g.m_xOffset - 2 ≤ -(PipeGate.s_pipeImage.getWidth : Int) →
      PipeGate.update rnd calls g
        = (⟨(LCD_WIDTH : Int), 20 + rnd calls % 44, false⟩, calls + 1))
    ∧ (-(PipeGate.s_pipeImage.getWidth : Int) < g.m_xOffset - 2 →
      PipeGate.update rnd calls g
        = (⟨g.m_xOffset - 2, g.m_gateY, g.m_isScored⟩, calls))

/-! ## Machine integers: lemmas -/

theorem toUInt16_of_nonneg (z : Int) (h0 : 0 ≤ z) (h1 : z < 65536) :
    toUInt16 z = z.toNat := by
  unfold toUInt16
  rw [Int.emod_eq_of_lt h0 h1]

theorem toUInt16_lt (z : Int) : toUInt16 z < 65536 := by
  unfold toUInt16
  omega

theorem toUInt16_cast (z : Int) : ((toUInt16 z : Nat) : Int) = z % 65536 := by
  unfold toUInt16
  omega

theorem toInt16_of_isInt16 (z : Int) (h : IsInt16 z) : toInt16 z = z := by
  unfold toInt16
  unfold IsInt16 at h
  omega

theorem toInt16_isInt16 (z : Int) : IsInt16 (toInt16 z) := by
  unfold toInt16 IsInt16
  omega

theorem toInt16_seventy : toInt16 70 = 70 := by decide

theorem toInt16_LCD_WIDTH : toInt16 ((LCD_WIDTH : Nat) : Int) = 160 := by decide

/-! ## Player: lemmas -/

theorem Player.fall_xPos (p : Player) : p.fall.m_xPos = p.m_xPos := by
  unfold Player.fall
  split <;> rfl

theorem Player.fly_xPos (p : Player) : p.fly.m_xPos = p.m_xPos := by
  unfold Player.fly
  split <;> rfl

theorem Player.fall_yPos (p : Player) :
    p.fall.m_yPos = if p.m_yPos < 111 then p.m_yPos + 3 else p.m_yPos := by
  unfold Player.fall
  simp only [LCD_HEIGHT, Player.s_playerImage, Image.getHeight, Player.s_gravity]
  by_cases h : p.m_yPos < 111
  · have h1 : ((p.m_yPos : Nat) : Int) < ((128 : Nat) : Int) - ((17 : Nat) : Int) := by omega
    rw [if_pos h1, if_pos h]
    simp only [toUInt16]
    omega
  · have h1 : ¬ ((p.m_yPos : Nat) : Int) < ((128 : Nat) : Int) - ((17 : Nat) : Int) := by omega
    rw [if_neg h1, if_neg h]

theorem Player.fly_yPos (p : Player) (hp : IsUInt16 p.m_yPos) :
    p.fly.m_yPos = if p.m_yPos > 3 then p.m_yPos - 3 else p.m_yPos := by
  unfold Player.fly
  simp only [Player.s_gravity]
  unfold IsUInt16 at hp
  by_cases h : p.m_yPos > 3
  · rw [if_pos h, if_pos h]
    simp only [toUInt16]
    omega
  · rw [if_neg h, if_neg h]

/-! ## PipeGate: lemmas -/

theorem PipeGate.getRandomInRange_margins (r : Nat) :
    PipeGate.getRandomInRange 20 63 r = 20 + r % 44 := by
  unfold PipeGate.getRandomInRange
  have h : Int.tmod (r : Int) (((63 : Nat) : Int) - ((20 : Nat) : Int) + 1)
      = ((r % 44 : Nat) : Int) := by
    have e : (((63 : Nat) : Int) - ((20 : Nat) : Int) + 1) = ((44 : Nat) : Int) := by norm_num
    rw [e, ← Int.ofNat_tmod]
  rw [h]
  unfold toUInt16
  omega

theorem PipeGate.reset_eq (rnd : Nat → Nat) (calls : Nat) (g : PipeGate) (startX : Int) :
    PipeGate.reset rnd calls g startX
      = (⟨toInt16 startX, 20 + rnd calls % 44, false⟩, calls + 1) := by
  unfold PipeGate.reset rand
  have h : toUInt16 ((LCD_HEIGHT : Int) - (PipeGate.s_gapHeight : Int)
      - (PipeGate.s_minMargin : Int)) = 63 := by decide
  simp only [h]
  simp only [PipeGate.s_minMargin, PipeGate.getRandomInRange_margins]

theorem PipeGate.update_eq (rnd : Nat → Nat) (calls : Nat) (g : PipeGate) :
    PipeGate.update rnd calls g
      = if toInt16 (g.m_xOffset - 2) ≤ -21
        then (⟨160, 20 + rnd calls % 44, false⟩, calls + 1)
        else (⟨toInt16 (g.m_xOffset - 2), g.m_gateY, g.m_isScored⟩, calls) := by
  unfold PipeGate.update
  have h21 : -(toInt16 ((PipeGate.s_pipeImage.getWidth : Nat) : Int)) = -21 := by decide
  have h160 : toInt16 ((LCD_WIDTH : Nat) : Int) = 160 := by decide
  simp only [h21, PipeGate.reset_eq, h160]

theorem PipeGate.updateRespawns_iff (g : PipeGate) :
    g.updateRespawns = true ↔ toInt16 (g.m_xOffset - 2) ≤ -21 := by
  unfold PipeGate.updateRespawns
  have h21 : -(toInt16 ((PipeGate.s_pipeImage.getWidth : Nat) : Int)) = -21 := by decide
  rw [h21]
  simp

theorem PipeGate.update_of_not_respawns (rnd : Nat → Nat) (calls : Nat) (g : PipeGate)
    (h : g.updateRespawns = false) :
    PipeGate.update rnd calls g
      = (⟨toInt16 (g.m_xOffset - 2), g.m_gateY, g.m_isScored⟩, calls) := by
  have h1 : ¬ toInt16 (g.m_xOffset - 2) ≤ -21 := by
    intro hc
    rw [(PipeGate.updateRespawns_iff g).mpr hc] at h
    exact Bool.noConfusion h
  rw [PipeGate.update_eq, if_neg h1]

theorem PipeGate.horizontalMiss_eq (g : PipeGate) (p : Player) :
    g.horizontalMiss p
      = (decide (p.m_xPos > toUInt16 (g.m_xOffset + 21))
          || decide (p.m_xPos + 25 < toUInt16 g.m_xOffset)) := by
  rfl

theorem PipeGate.checkInteraction_eq (g : PipeGate) (p : Player) :
    g.checkInteraction p
      = if g.horizontalMiss p = true then (PipeInteraction.none, g)
        else if p.m_yPos < g.m_gateY ∨ p.m_yPos + 17 > g.m_gateY + 45
          then (PipeInteraction.colliding, g)
        else if g.m_isScored = true then (PipeInteraction.none, g)
        else (PipeInteraction.passingThrough, ⟨g.m_xOffset, g.m_gateY, true⟩) := by
  unfold PipeGate.checkInteraction
  simp only [Player.getY, Player.getHeight, Player.s_playerImage, Image.getHeight,
    PipeGate.s_gapHeight, Bool.or_eq_true, decide_eq_true_eq]

/-! ## Reachability: lemmas -/

theorem Reachable.run {rnd : Nat → Nat} {s : Game} (h : Reachable rnd s) (buttons : List Bool) :
    Reachable rnd (run rnd s buttons) := by
  induction buttons generalizing s with
  | nil => exact h
  | cons b rest ih => exact ih (Reachable.frame s b h)

/-! ## Scoring once per respawn cycle: lemmas -/

theorem PipeGate.checkInteraction_scored_ne (g : PipeGate) (p : Player)
    (h : g.m_isScored = true) :
    (g.checkInteraction p).1 ≠ PipeInteraction.passingThrough
      ∧ (g.checkInteraction p).2 = g := by
  rw [PipeGate.checkInteraction_eq]
  by_cases h1 : g.horizontalMiss p = true
  · rw [if_pos h1]
    exact ⟨by simp, rfl⟩
  · rw [if_neg h1]
    by_cases h2 : p.m_yPos < g.m_gateY ∨ p.m_yPos + 17 > g.m_gateY + 45
    · rw [if_pos h2]
      exact ⟨by simp, rfl⟩
    · rw [if_neg h2, if_pos h]
      exact ⟨by simp, rfl⟩

theorem PipeGate.checkInteraction_passing (g : PipeGate) (p : Player)
    (h : (g.checkInteraction p).1 = PipeInteraction.passingThrough) :
    g.horizontalMiss p = false
      ∧ ¬ (p.m_yPos < g.m_gateY ∨ p.m_yPos + 17 > g.m_gateY + 45)
      ∧ g.m_isScored = false
      ∧ (g.checkInteraction p).2 = ⟨g.m_xOffset, g.m_gateY, true⟩ := by
  rw [PipeGate.checkInteraction_eq] at h ⊢
  by_cases h1 : g.horizontalMiss p = true
  · rw [if_pos h1] at h
    exact absurd h (by simp)
  · rw [if_neg h1] at h ⊢
    by_cases h2 : p.m_yPos < g.m_gateY ∨ p.m_yPos + 17 > g.m_gateY + 45
    · rw [if_pos h2] at h
      exact absurd h (by simp)
    · rw [if_neg h2] at h ⊢
      by_cases h3 : g.m_isScored = true
      · rw [if_pos h3] at h
        exact absurd h (by simp)
      · rw [if_neg h3]
        exact ⟨by simpa using h1, h2, by simpa using h3, rfl⟩

theorem PipeGate.runCalls_scored (rnd : Nat → Nat) (ops : List GateCall) :
    ∀ (calls : Nat) (g : PipeGate), g.m_isScored = true →
      PipeGate.anyRespawn rnd calls g ops = false →
      ∀ r ∈ (PipeGate.runCalls rnd calls g ops).1, r ≠ PipeInteraction.passingThrough := by
  induction ops with
  | nil =>
    intro calls g _ _ r hr
    simp [PipeGate.runCalls] at hr
  | cons op rest ih =>
    intro calls g hg hno r hr
    cases op with
    | checkInteraction p =>
      have hc := PipeGate.checkInteraction_scored_ne g p hg
      simp only [PipeGate.anyRespawn] at hno
      simp only [PipeGate.runCalls, List.mem_cons] at hr
      rcases hr with hr | hr
      · rw [hr]
        exact hc.1
      · rw [hc.2] at hr hno
        exact ih calls g hg hno r hr
    | update =>
      simp only [PipeGate.anyRespawn, Bool.or_eq_false_iff] at hno
      simp only [PipeGate.runCalls] at hr
      rw [PipeGate.update_of_not_respawns rnd calls g hno.1] at hr
      have hno2 := hno.2
      rw [PipeGate.update_of_not_respawns rnd calls g hno.1] at hno2
      exact ih calls ⟨toInt16 (g.m_xOffset - 2), g.m_gateY, g.m_isScored⟩ hg hno2 r hr

theorem PipeGate.runCalls_count (rnd : Nat → Nat) (ops : List GateCall) :
    ∀ (calls : Nat) (g : PipeGate), PipeGate.anyRespawn rnd calls g ops = false →
      ((PipeGate.runCalls rnd calls g ops).1.count PipeInteraction.passingThrough) ≤ 1 := by
  induction ops with
  | nil =>
    intro calls g _
    simp [PipeGate.runCalls]
  | cons op rest ih =>
    intro calls g hno
    cases op with
    | checkInteraction p =>
      simp only [PipeGate.anyRespawn] at hno
      simp only [PipeGate.runCalls]
      by_cases hp : (g.checkInteraction p).1 = PipeInteraction.passingThrough
      · have hs : (g.checkInteraction p).2.m_isScored = true := by
          rw [(PipeGate.checkInteraction_passing g p hp).2.2.2]
        have hnone := PipeGate.runCalls_scored rnd rest calls _ hs hno
        have h0 : (PipeGate.runCalls rnd calls (g.checkInteraction p).2 rest).1.count
            PipeInteraction.passingThrough = 0 := by
          rw [List.count_eq_zero]
          intro hmem
          exact hnone _ hmem rfl
        rw [hp, List.count_cons_self, h0]
      · rw [List.count_cons_of_ne (fun h => hp h.symm)]
        exact ih calls _ hno
    | update =>
      simp only [PipeGate.anyRespawn, Bool.or_eq_false_iff] at hno
      simp only [PipeGate.runCalls]
      exact ih _ _ hno.2

/-! ## The frame step: lemmas -/

theorem playingFrame_player (rnd : Nat → Nat) (s : Game) (b : Bool) :
    (playingFrame rnd s b).player = movedPlayer s b := by
  unfold playingFrame
  dsimp only
  split
  · rfl
  · split <;> rfl

theorem playingFrame_pipeGate1 (rnd : Nat → Nat) (s : Game) (b : Bool) :
    (playingFrame rnd s b).pipeGate1 = (interaction1 rnd s b).2 := by
  unfold playingFrame
  dsimp only
  split
  · rfl
  · split <;> rfl

theorem playingFrame_pipeGate2 (rnd : Nat → Nat) (s : Game) (b : Bool) :
    (playingFrame rnd s b).pipeGate2 = (interaction2 rnd s b).2 := by
  unfold playingFrame
  dsimp only
  split
  · rfl
  · split <;> rfl

theorem playingFrame_background (rnd : Nat → Nat) (s : Game) (b : Bool) :
    (playingFrame rnd s b).background = s.background.update := by
  unfold playingFrame
  dsimp only
  split
  · rfl
  · split <;> rfl

theorem playingFrame_randCalls (rnd : Nat → Nat) (s : Game) (b : Bool) :
    (playingFrame rnd s b).randCalls = (updatedGate2 rnd s).2 := by
  unfold playingFrame
  dsimp only
  split
  · rfl
  · split <;> rfl

theorem playingFrame_gameState (rnd : Nat → Nat) (s : Game) (b : Bool) :
    (playingFrame rnd s b).gameState
      = if gateInteraction (interaction1 rnd s b).1 (interaction2 rnd s b).1 = 1
        then GameState.gameOver else s.gameState := by
  unfold playingFrame
  dsimp only
  simp only [PipeInteraction.toNat]
  split
  · rfl
  · split <;> rfl

theorem playingFrame_score (rnd : Nat → Nat) (s : Game) (b : Bool) :
    (playingFrame rnd s b).score
      = if gateInteraction (interaction1 rnd s b).1 (interaction2 rnd s b).1 = 2
        then (s.score + 1) % 65536 else s.score := by
  unfold playingFrame
  dsimp only
  simp only [PipeInteraction.toNat]
  by_cases h1 : gateInteraction (interaction1 rnd s b).1 (interaction2 rnd s b).1 = 1
  · have h2 : ¬ gateInteraction (interaction1 rnd s b).1 (interaction2 rnd s b).1 = 2 := by
      rw [h1]
      decide
    rw [if_pos h1, if_neg h2]
  · rw [if_neg h1]
    split <;> rfl

theorem frame_playing (rnd : Nat → Nat) (s : Game) (b : Bool)
    (h : s.gameState = GameState.playing) : frame rnd s b = playingFrame rnd s b := by
  unfold frame
  rw [h]

theorem frame_gameOver (rnd : Nat → Nat) (s : Game) (b : Bool)
    (h : s.gameState = GameState.gameOver) : frame rnd s b = gameOverFrame rnd s b := by
  unfold frame
  rw [h]

theorem frame_titleScreen (rnd : Nat → Nat) (s : Game) (b : Bool)
    (h : s.gameState = GameState.titleScreen) : frame rnd s b = titleScreenFrame s b := by
  unfold frame
  rw [h]

theorem gateInteraction_table (a c : PipeInteraction) :
    gateInteraction a c
      = match a, c with
        | PipeInteraction.none, x => x.toNat
        | x, PipeInteraction.none => x.toNat
        | PipeInteraction.colliding, PipeInteraction.colliding => 1
        | PipeInteraction.passingThrough, PipeInteraction.passingThrough => 2
        | PipeInteraction.colliding, PipeInteraction.passingThrough => 3
        | PipeInteraction.passingThrough, PipeInteraction.colliding => 3 := by
  cases a <;> cases c <;> rfl

/-! ## The stagger of the two gates: lemmas -/

theorem PipeGate.checkInteraction_xOffset (g : PipeGate) (p : Player) :
    (g.checkInteraction p).2.m_xOffset = g.m_xOffset := by
  rw [PipeGate.checkInteraction_eq]
  split
  · rfl
  · split
    · rfl
    · split <;> rfl

theorem PipeGate.checkInteraction_gateY (g : PipeGate) (p : Player) :
    (g.checkInteraction p).2.m_gateY = g.m_gateY := by
  rw [PipeGate.checkInteraction_eq]
  split
  · rfl
  · split
    · rfl
    · split <;> rfl

theorem PipeGate.checkInteraction_of_miss (g : PipeGate) (p : Player)
    (h : g.horizontalMiss p = true) : g.checkInteraction p = (PipeInteraction.none, g) := by
  rw [PipeGate.checkInteraction_eq, if_pos h]

theorem PipeGate.update_xOffset (rnd : Nat → Nat) (calls : Nat) (g : PipeGate) :
    (PipeGate.update rnd calls g).1.m_xOffset
      = if toInt16 (g.m_xOffset - 2) ≤ -21 then 160 else toInt16 (g.m_xOffset - 2) := by
  rw [PipeGate.update_eq]
  split <;> rfl

theorem GatesStaggered.update {g1 g2 : PipeGate} (h : GatesStaggered g1 g2)
    (rnd : Nat → Nat) (c1 c2 : Nat) :
    GatesStaggered (PipeGate.update rnd c1 g1).1 (PipeGate.update rnd c2 g2).1 := by
  unfold GatesStaggered at h ⊢
  rw [PipeGate.update_xOffset, PipeGate.update_xOffset]
  have e1 : IsInt16 (g1.m_xOffset - 2) := by
    unfold IsInt16
    omega
  have e2 : IsInt16 (g2.m_xOffset - 2) := by
    unfold IsInt16
    omega
  rw [toInt16_of_isInt16 _ e1, toInt16_of_isInt16 _ e2]
  split <;> split <;> omega

theorem PipeGate.horizontalMiss_player20 (g : PipeGate) (p : Player)
    (hp : p.m_xPos = 20) (hg : IsInt16 g.m_xOffset) :
    g.horizontalMiss p = false ↔ 0 ≤ g.m_xOffset ∧ g.m_xOffset ≤ 45 := by
  rw [PipeGate.horizontalMiss_eq, hp]
  unfold IsInt16 at hg
  simp only [Bool.or_eq_false_iff, decide_eq_false_iff_not, toUInt16]
  omega

theorem GatesStaggered.one_miss {g1 g2 : PipeGate} (h : GatesStaggered g1 g2) (p : Player)
    (hp : p.m_xPos = 20) : g1.horizontalMiss p = true ∨ g2.horizontalMiss p = true := by
  unfold GatesStaggered at h
  have e1 : IsInt16 g1.m_xOffset := by
    unfold IsInt16
    omega
  have e2 : IsInt16 g2.m_xOffset := by
    unfold IsInt16
    omega
  by_cases h1 : g1.horizontalMiss p = true
  · exact Or.inl h1
  · right
    have h1f : g1.horizontalMiss p = false := by simpa using h1
    have w1 := (PipeGate.horizontalMiss_player20 g1 p hp e1).mp h1f
    by_contra h2
    have h2f : g2.horizontalMiss p = false := by simpa using h2
    have w2 := (PipeGate.horizontalMiss_player20 g2 p hp e2).mp h2f
    omega

theorem movedPlayer_xPos (s : Game) (b : Bool) :
    (movedPlayer s b).m_xPos = s.player.m_xPos := by
  unfold movedPlayer
  cases b
  · exact Player.fall_xPos _
  · exact Player.fly_xPos _

theorem frame_player_xPos (rnd : Nat → Nat) (s : Game) (b : Bool) :
    (frame rnd s b).player.m_xPos = s.player.m_xPos := by
  unfold frame
  split
  · unfold titleScreenFrame
    split <;> rfl
  · rw [playingFrame_player, movedPlayer_xPos]
  · unfold gameOverFrame
    split <;> rfl

theorem Reachable.player_xPos {rnd : Nat → Nat} {s : Game} (h : Reachable rnd s) :
    s.player.m_xPos = 20 := by
  induction h with
  | start => rfl
  | frame s b _ ih => rw [frame_player_xPos, ih]

theorem frame_staggered (rnd : Nat → Nat) (s : Game) (b : Bool)
    (h : GatesStaggered s.pipeGate1 s.pipeGate2) :
    GatesStaggered (frame rnd s b).pipeGate1 (frame rnd s b).pipeGate2 := by
  unfold frame
  split
  · unfold titleScreenFrame
    split <;> exact h
  · have hu := GatesStaggered.update h rnd s.randCalls (updatedGate1 rnd s).2
    rw [playingFrame_pipeGate1, playingFrame_pipeGate2]
    unfold GatesStaggered at hu ⊢
    unfold interaction1 interaction2
    rw [PipeGate.checkInteraction_xOffset, PipeGate.checkInteraction_xOffset]
    exact hu
  · unfold gameOverFrame
    split
    · simp only [PipeGate.reset_eq, toInt16_seventy, toInt16_LCD_WIDTH]
      unfold GatesStaggered
      dsimp only
      omega
    · exact h

theorem Reachable.staggered {rnd : Nat → Nat} {s : Game} (h : Reachable rnd s) :
    GatesStaggered s.pipeGate1 s.pipeGate2 := by
  induction h with
  | start =>
    unfold Game.start PipeGate.new
    simp only [PipeGate.reset_eq, toInt16_seventy, toInt16_LCD_WIDTH]
    unfold GatesStaggered
    dsimp only
    omega
  | frame s b _ ih => exact frame_staggered rnd s b ih

/-- In a playing frame of a reachable state at least one of the two gates misses the
player horizontally, so at least one `checkInteraction` returns `none`. -/
theorem Reachable.one_interaction_none {rnd : Nat → Nat} {s : Game} (h : Reachable rnd s)
    (b : Bool) :
    (interaction1 rnd s b).1 = PipeInteraction.none
      ∨ (interaction2 rnd s b).1 = PipeInteraction.none := by
  have hu := GatesStaggered.update h.staggered rnd s.randCalls (updatedGate1 rnd s).2
  have hp : (movedPlayer s b).m_xPos = 20 := by rw [movedPlayer_xPos, h.player_xPos]
  rcases GatesStaggered.one_miss hu (movedPlayer s b) hp with h1 | h2
  · left
    unfold interaction1 updatedGate1
    rw [PipeGate.checkInteraction_of_miss _ _ h1]
  · right
    unfold interaction2 updatedGate2
    rw [PipeGate.checkInteraction_of_miss _ _ h2]

/-! ## C1: the floor bound of the player -/

/-- C1 (the code breaks the bound): the state after the button samples `fallToFloor`,
with every random draw equal to 43, is reachable from the initial state, and in it the
player's `m_yPos` is 113, above the bound `LCD_HEIGHT - playerHeight = 111`: `fall` tests
`m_yPos < 111` at 110 and then adds the whole gravity step. -/
theorem C1_fall_overshoots_floor :
    Reachable lowGaps (run lowGaps (Game.start lowGaps) fallToFloor)
      ∧ (run lowGaps (Game.start lowGaps) fallToFloor).gameState = GameState.playing
      ∧ (run lowGaps (Game.start lowGaps) fallToFloor).player.m_yPos = 113
      ∧ ¬ ((run lowGaps (Game.start lowGaps) fallToFloor).player.m_yPos
            ≤ LCD_HEIGHT - Player.s_playerImage.getHeight)
      ∧ (Player.fall ⟨20, 110⟩).m_yPos = 113 :=
  ⟨Reachable.start.run fallToFloor, by decide, by decide, by decide, by decide⟩

/-! ## C2: a collision and the merge of the two results -/

/-- C2: in a playing frame of a state reachable from the initial state, whenever
`checkInteraction` of at least one of the two gates returns `colliding`, the game state
after the frame is `gameOver`, whatever the other gate returns. In every such frame, with
any button input, the merge of the two results is the priority rule
`colliding > passingThrough > none`, and the game state and the score after the frame are
those that the rule gives. -/
theorem C2_colliding_gives_gameOver (rnd : Nat → Nat) (s : Game) (buttonPressed : Bool)
    (hr : Reachable rnd s) (hs : s.gameState = GameState.playing)
    (hc : (interaction1 rnd s buttonPressed).1 = PipeInteraction.colliding
      ∨ (interaction2 rnd s buttonPressed).1 = PipeInteraction.colliding) :
    (frame rnd s buttonPressed).gameState = GameState.gameOver
      ∧ priorityMerge (interaction1 rnd s buttonPressed).1 (interaction2 rnd s buttonPressed).1
          = PipeInteraction.colliding
      ∧ (∀ b : Bool,
          gateInteraction (interaction1 rnd s b).1 (interaction2 rnd s b).1
              = (priorityMerge (interaction1 rnd s b).1 (interaction2 rnd s b).1).toNat
            ∧ (frame rnd s b).gameState
                = (if priorityMerge (interaction1 rnd s b).1 (interaction2 rnd s b).1
                      = PipeInteraction.colliding
                    then GameState.gameOver else GameState.playing)
            ∧ (frame rnd s b).score
                = (if priorityMerge (interaction1 rnd s b).1 (interaction2 rnd s b).1
                      = PipeInteraction.passingThrough
                    then (s.score + 1) % 65536 else s.score)) := by
  refine ⟨?_, ?_, ?_⟩
  · rw [frame_playing rnd s buttonPressed hs, playingFrame_gameState]
    have hnone := Reachable.one_interaction_none hr buttonPressed
    generalize (interaction1 rnd s buttonPressed).1 = a at hc hnone
    generalize (interaction2 rnd s buttonPressed).1 = c at hc hnone
    cases a <;> cases c <;> simp_all [gateInteraction, PipeInteraction.toNat]
  · generalize (interaction1 rnd s buttonPressed).1 = a at hc
    generalize (interaction2 rnd s buttonPressed).1 = c at hc
    cases a <;> cases c <;> simp_all [priorityMerge]
  · intro b
    rw [frame_playing rnd s b hs, playingFrame_gameState, playingFrame_score, hs]
    have hnone := Reachable.one_interaction_none hr b
    generalize (interaction1 rnd s b).1 = a at hnone
    generalize (interaction2 rnd s b).1 = c at hnone
    cases a <;> cases c <;>
      simp_all [gateInteraction, PipeInteraction.toNat, priorityMerge]

/-- C2 (witness): holding the button from the title screen for 13 frames, with every gap at
its lowest position, gives a reachable playing state whose next frame (button still held)
has the first gate colliding and ends in `gameOver`. -/
theorem C2_colliding_gives_gameOver_witness :
    (run lowGaps (Game.start lowGaps) (List.replicate 13 true)).gameState = GameState.playing
      ∧ (interaction1 lowGaps (run lowGaps (Game.start lowGaps) (List.replicate 13 true))
          true).1 = PipeInteraction.colliding
      ∧ (frame lowGaps (run lowGaps (Game.start lowGaps) (List.replicate 13 true))
          true).gameState = GameState.gameOver :=
  ⟨by decide, by decide,
    (C2_colliding_gives_gameOver lowGaps
      (run lowGaps (Game.start lowGaps) (List.replicate 13 true)) true
      (Reachable.start.run _) (by decide) (Or.inl (by decide))).1⟩

/-! ## C3: one score per respawn cycle -/

/-- C3: once `checkInteraction` has returned `passingThrough` for a gate, in every later
sequence of `checkInteraction` calls (with any players) and `update` calls none of which
respawns the gate, no `checkInteraction` returns `passingThrough`: the whole sequence
counts exactly one `passingThrough`. The next call with the same player returns `none`. -/
theorem C3_passingThrough_once_per_cycle (rnd : Nat → Nat) (calls : Nat) (g : PipeGate)
    (p : Player) (ops : List GateCall)
    (hfirst : (g.checkInteraction p).1 = PipeInteraction.passingThrough)
    (hno : PipeGate.anyRespawn rnd calls (g.checkInteraction p).2 ops = false) :
    (∀ r ∈ (PipeGate.runCalls rnd calls (g.checkInteraction p).2 ops).1,
        r ≠ PipeInteraction.passingThrough)
      ∧ (PipeGate.runCalls rnd calls g (GateCall.checkInteraction p :: ops)).1.count
          PipeInteraction.passingThrough = 1
      ∧ ((g.checkInteraction p).2.checkInteraction p) = (PipeInteraction.none,
          (g.checkInteraction p).2) := by
  have hp := PipeGate.checkInteraction_passing g p hfirst
  have hs : (g.checkInteraction p).2.m_isScored = true := by rw [hp.2.2.2]
  have hall := PipeGate.runCalls_scored rnd ops calls _ hs hno
  refine ⟨hall, ?_, ?_⟩
  · simp only [PipeGate.runCalls]
    rw [hfirst, List.count_cons_self]
    have h0 : (PipeGate.runCalls rnd calls (g.checkInteraction p).2 ops).1.count
        PipeInteraction.passingThrough = 0 := by
      rw [List.count_eq_zero]
      intro hmem
      exact hall _ hmem rfl
    rw [h0]
  · rw [hp.2.2.2, PipeGate.checkInteraction_eq]
    have hm : PipeGate.horizontalMiss ⟨g.m_xOffset, g.m_gateY, true⟩ p = false := hp.1
    rw [hm]
    simp only [Bool.false_eq_true, if_false]
    rw [if_neg hp.2.1]
    simp

/-- C3 (witness): player at `m_yPos = 50`, gate at offset 30 with `m_gateY = 40`: the
first call returns `passingThrough`, the next call with the same player returns `none`,
and no call of the sequence check, update, check returns `passingThrough`. -/
theorem C3_passingThrough_once_per_cycle_witness :
    ((⟨30, 40, false⟩ : PipeGate).checkInteraction ⟨20, 50⟩).1
        = PipeInteraction.passingThrough
      ∧ (((⟨30, 40, false⟩ : PipeGate).checkInteraction ⟨20, 50⟩).2.checkInteraction
          ⟨20, 50⟩).1 = PipeInteraction.none
      ∧ (PipeGate.runCalls lowGaps 2 ⟨30, 40, false⟩
          [GateCall.checkInteraction ⟨20, 50⟩, GateCall.checkInteraction ⟨20, 50⟩,
            GateCall.update, GateCall.checkInteraction ⟨20, 53⟩]).1.count
          PipeInteraction.passingThrough = 1 :=
  ⟨by decide, by decide,
    (C3_passingThrough_once_per_cycle lowGaps 2 ⟨30, 40, false⟩ ⟨20, 50⟩
      [GateCall.checkInteraction ⟨20, 50⟩, GateCall.update,
        GateCall.checkInteraction ⟨20, 53⟩] (by decide) (by decide)).2.1⟩

/-! ## C4: the vertical test -/

/-- C4: when the horizontal test does not reject, `checkInteraction` returns `colliding`
exactly when `m_yPos < m_gateY` or `m_yPos + 17 > m_gateY + 45`, whatever the scored flag;
otherwise it returns `passingThrough` when the gate is not scored and `none` when it is.
The positions `m_yPos = m_gateY` and `m_yPos + 17 = m_gateY + 45` do not collide. -/
theorem C4_vertical_test (g : PipeGate) (p : Player) (h : g.horizontalMiss p = false) :
    ((g.checkInteraction p).1 = PipeInteraction.colliding
        ↔ (p.m_yPos < g.m_gateY ∨ p.m_yPos + 17 > g.m_gateY + 45))
      ∧ (¬ (p.m_yPos < g.m_gateY ∨ p.m_yPos + 17 > g.m_gateY + 45) →
          (g.checkInteraction p).1
            = if g.m_isScored = true then PipeInteraction.none
              else PipeInteraction.passingThrough)
      ∧ (p.m_yPos = g.m_gateY → (g.checkInteraction p).1 ≠ PipeInteraction.colliding)
      ∧ (p.m_yPos + 17 = g.m_gateY + 45 →
          (g.checkInteraction p).1 ≠ PipeInteraction.colliding) := by
  have hiff : (g.checkInteraction p).1 = PipeInteraction.colliding
      ↔ (p.m_yPos < g.m_gateY ∨ p.m_yPos + 17 > g.m_gateY + 45) := by
    rw [PipeGate.checkInteraction_eq, h]
    simp only [Bool.false_eq_true, if_false]
    by_cases hv : p.m_yPos < g.m_gateY ∨ p.m_yPos + 17 > g.m_gateY + 45
    · rw [if_pos hv]
      simp [hv]
    · rw [if_neg hv]
      by_cases hsc : g.m_isScored = true
      · rw [if_pos hsc]
        simp [hv]
      · rw [if_neg hsc]
        simp [hv]
  refine ⟨hiff, ?_, ?_, ?_⟩
  · intro hv
    rw [PipeGate.checkInteraction_eq, h]
    simp only [Bool.false_eq_true, if_false]
    rw [if_neg hv]
    by_cases hsc : g.m_isScored = true
    · rw [if_pos hsc, if_pos hsc]
    · rw [if_neg hsc, if_neg hsc]
  · intro he hcol
    have := hiff.mp hcol
    omega
  · intro he hcol
    have := hiff.mp hcol
    omega

/-- C4 (witness): player at `m_yPos = 30`, gate over the player with `m_gateY = 40`: the
call returns `colliding`. -/
theorem C4_vertical_test_witness :
    (⟨30, 40, false⟩ : PipeGate).horizontalMiss ⟨20, 30⟩ = false
      ∧ ((⟨30, 40, false⟩ : PipeGate).checkInteraction ⟨20, 30⟩).1
          = PipeInteraction.colliding :=
  ⟨by decide,
    (C4_vertical_test ⟨30, 40, false⟩ ⟨20, 30⟩ (by decide)).1.mpr (Or.inl (by decide))⟩

/-! ## The gap band: lemmas -/

theorem PipeGate.update_gateY (rnd : Nat → Nat) (calls : Nat) (g : PipeGate) :
    (PipeGate.update rnd calls g).1.m_gateY
      = if g.updateRespawns = true then 20 + rnd calls % 44 else g.m_gateY := by
  rw [PipeGate.update_eq]
  by_cases h : toInt16 (g.m_xOffset - 2) ≤ -21
  · rw [if_pos h, if_pos ((PipeGate.updateRespawns_iff g).mpr h)]
  · rw [if_neg h, if_neg (fun hc => h ((PipeGate.updateRespawns_iff g).mp hc))]

theorem PipeGate.update_gateY_band (rnd : Nat → Nat) (calls : Nat) (g : PipeGate)
    (h : 20 ≤ g.m_gateY ∧ g.m_gateY ≤ 63) :
    20 ≤ (PipeGate.update rnd calls g).1.m_gateY
      ∧ (PipeGate.update rnd calls g).1.m_gateY ≤ 63 := by
  rw [PipeGate.update_gateY]
  split
  · omega
  · exact h

theorem frame_gateY_band (rnd : Nat → Nat) (s : Game) (b : Bool)
    (h : (20 ≤ s.pipeGate1.m_gateY ∧ s.pipeGate1.m_gateY ≤ 63)
      ∧ (20 ≤ s.pipeGate2.m_gateY ∧ s.pipeGate2.m_gateY ≤ 63)) :
    (20 ≤ (frame rnd s b).pipeGate1.m_gateY ∧ (frame rnd s b).pipeGate1.m_gateY ≤ 63)
      ∧ (20 ≤ (frame rnd s b).pipeGate2.m_gateY
        ∧ (frame rnd s b).pipeGate2.m_gateY ≤ 63) := by
  unfold frame
  split
  · unfold titleScreenFrame
    split <;> exact h
  · rw [playingFrame_pipeGate1, playingFrame_pipeGate2]
    unfold interaction1 interaction2
    rw [PipeGate.checkInteraction_gateY, PipeGate.checkInteraction_gateY]
    exact ⟨PipeGate.update_gateY_band rnd _ _ h.1, PipeGate.update_gateY_band rnd _ _ h.2⟩
  · unfold gameOverFrame
    split
    · simp only [PipeGate.reset_eq]
      omega
    · exact h

theorem Reachable.gateY_band {rnd : Nat → Nat} {s : Game} (h : Reachable rnd s) :
    (20 ≤ s.pipeGate1.m_gateY ∧ s.pipeGate1.m_gateY ≤ 63)
      ∧ (20 ≤ s.pipeGate2.m_gateY ∧ s.pipeGate2.m_gateY ≤ 63) := by
  induction h with
  | start =>
    unfold Game.start PipeGate.new
    simp only [PipeGate.reset_eq]
    omega
  | frame s b _ ih => exact frame_gateY_band rnd s b ih

/-! ## The backdrop: lemmas -/

theorem ScrollingBackground.update_offset (b : ScrollingBackground)
    (h : -160 < b.m_offset ∧ b.m_offset ≤ 0) :
    b.update.m_offset
      = if b.m_offset - 1 ≤ -160 then b.m_offset - 1 + 160 else b.m_offset - 1 := by
  unfold ScrollingBackground.update
  have h160 : ((ScrollingBackground.s_bgImage.getWidth / 2 : Nat) : Int) = 160 := by decide
  have hn : -(toInt16 160) = -160 := by decide
  have e1 : toInt16 (b.m_offset - 1) = b.m_offset - 1 := by
    apply toInt16_of_isInt16
    unfold IsInt16
    omega
  simp only [h160, hn, e1]
  by_cases hc : b.m_offset - 1 ≤ -160
  · rw [if_pos hc, if_pos hc]
    show toInt16 _ = _
    apply toInt16_of_isInt16
    unfold IsInt16
    omega
  · rw [if_neg hc, if_neg hc]

theorem ScrollingBackground.update_range (b : ScrollingBackground)
    (h : -160 < b.m_offset ∧ b.m_offset ≤ 0) :
    -160 < b.update.m_offset ∧ b.update.m_offset ≤ 0 := by
  rw [ScrollingBackground.update_offset b h]
  split <;> omega

theorem ScrollingBackground.iterate_range (n : Nat) (b : ScrollingBackground)
    (h : -160 < b.m_offset ∧ b.m_offset ≤ 0) :
    -160 < (Nat.iterate ScrollingBackground.update n b).m_offset
      ∧ (Nat.iterate ScrollingBackground.update n b).m_offset ≤ 0 := by
  induction n generalizing b with
  | zero => exact h
  | succ k ih =>
    rw [Function.iterate_succ_apply]
    exact ih b.update (ScrollingBackground.update_range b h)

/-! ## The horizontal test: lemmas -/

theorem PipeGate.horizontalMiss_iff_casts (g : PipeGate) (p : Player) :
    g.horizontalMiss p = true
      ↔ (p.m_xPos > toUInt16 (g.m_xOffset + 21) ∨ p.m_xPos + 25 < toUInt16 g.m_xOffset) := by
  rw [PipeGate.horizontalMiss_eq]
  simp only [Bool.or_eq_true, decide_eq_true_eq]

/-- For the player at `x = 20` and a gate at an even offset the horizontal test is the
comparison of the signed edges. -/
theorem PipeGate.horizontalMiss_signed (g : PipeGate) (p : Player) (hp : p.m_xPos = 20)
    (hg : -32768 ≤ g.m_xOffset ∧ g.m_xOffset ≤ 32767) (he : g.m_xOffset % 2 = 0) :
    g.horizontalMiss p = true
      ↔ ((p.getX : Int) > g.m_xOffset + (PipeGate.s_pipeImage.getWidth : Int)
          ∨ (p.getX : Int) + (p.getWidth : Int) < g.m_xOffset) := by
  rw [PipeGate.horizontalMiss_iff_casts]
  have e1 : ((PipeGate.s_pipeImage.getWidth : Nat) : Int) = 21 := by decide
  have e2 : ((p.getWidth : Nat) : Int) = 25 := rfl
  have e3 : p.getX = p.m_xPos := rfl
  rw [e1, e2, e3, hp]
  unfold toUInt16
  omega

theorem PipeGate.checkInteraction_cases (g : PipeGate) (p : Player)
    (hm : g.horizontalMiss p = false) :
    (g.checkInteraction p).1 = PipeInteraction.colliding
      ∨ ((g.checkInteraction p).1 = PipeInteraction.passingThrough ∧ g.m_isScored = false)
      ∨ ((g.checkInteraction p).1 = PipeInteraction.none ∧ g.m_isScored = true) := by
  rw [PipeGate.checkInteraction_eq, hm]
  simp only [Bool.false_eq_true, if_false]
  by_cases hv : p.m_yPos < g.m_gateY ∨ p.m_yPos + 17 > g.m_gateY + 45
  · rw [if_pos hv]
    exact Or.inl rfl
  · rw [if_neg hv]
    by_cases hsc : g.m_isScored = true
    · rw [if_pos hsc]
      exact Or.inr (Or.inr ⟨rfl, hsc⟩)
    · rw [if_neg hsc]
      exact Or.inr (Or.inl ⟨rfl, by simpa using hsc⟩)

theorem horizontalRule_of_even (g : PipeGate) (p : Player) (hp : p.m_xPos = 20)
    (hg : -32768 ≤ g.m_xOffset ∧ g.m_xOffset ≤ 32767) (he : g.m_xOffset % 2 = 0) :
    HorizontalRule g p :=
  ⟨PipeGate.horizontalMiss_signed g p hp hg he, PipeGate.checkInteraction_of_miss g p,
    PipeGate.checkInteraction_cases g p⟩

theorem GatesStaggered.even_in_range {g1 g2 : PipeGate} (h : GatesStaggered g1 g2) :
    (g1.m_xOffset % 2 = 0 ∧ -20 ≤ g1.m_xOffset ∧ g1.m_xOffset ≤ 160)
      ∧ (g2.m_xOffset % 2 = 0 ∧ -20 ≤ g2.m_xOffset ∧ g2.m_xOffset ≤ 160) := by
  unfold GatesStaggered at h
  omega

/-! ## C5: the horizontal test -/

/-- C5: in every state reachable from the initial state, for each gate (as it stands in
the state and as `update` leaves it in a frame, possibly at a negative offset while it
leaves the screen on the left) and the player (before and after the frame's move),
`checkInteraction` is fast-rejected with `none` exactly when
`playerLeft > m_xOffset + pipeWidth` or `playerRight < m_xOffset`, so both edges are
inclusive, and a call that is not rejected goes on to the vertical test: it returns
`colliding`, or `passingThrough` for an unscored gate, or `none` for a scored one. For
every gate and player, `playerRight = pipeLeft` is not rejected, and neither is
`playerLeft = pipeRight` at an offset that is not negative. -/
theorem C5_horizontal_test (rnd : Nat → Nat) (s : Game) (buttonPressed : Bool)
    (hr : Reachable rnd s) :
    (HorizontalRule s.pipeGate1 s.player ∧ HorizontalRule s.pipeGate2 s.player)
      ∧ (HorizontalRule (updatedGate1 rnd s).1 (movedPlayer s buttonPressed)
          ∧ HorizontalRule (updatedGate2 rnd s).1 (movedPlayer s buttonPressed))
      ∧ (∀ (g : PipeGate) (p : Player), IsInt16 g.m_xOffset →
          ((p.getX : Int) + (p.getWidth : Int) = g.m_xOffset → g.horizontalMiss p = false)
            ∧ (0 ≤ g.m_xOffset →
                (p.getX : Int) = g.m_xOffset + (PipeGate.s_pipeImage.getWidth : Int) →
                g.horizontalMiss p = false)) := by
  have hst := hr.staggered
  have hu := GatesStaggered.update hst rnd s.randCalls (updatedGate1 rnd s).2
  have hp : (movedPlayer s buttonPressed).m_xPos = 20 := by
    rw [movedPlayer_xPos, hr.player_xPos]
  have r1 := hst.even_in_range
  have r2 := hu.even_in_range
  refine ⟨⟨?_, ?_⟩, ⟨?_, ?_⟩, ?_⟩
  · exact horizontalRule_of_even _ _ hr.player_xPos (by omega) r1.1.1
  · exact horizontalRule_of_even _ _ hr.player_xPos (by omega) r1.2.1
  · exact horizontalRule_of_even _ _ hp (by unfold updatedGate1; omega)
      (by unfold updatedGate1; exact r2.1.1)
  · exact horizontalRule_of_even _ _ hp (by unfold updatedGate2; omega)
      (by unfold updatedGate2; exact r2.2.1)
  · intro g p hg
    unfold IsInt16 at hg
    have e1 : ((PipeGate.s_pipeImage.getWidth : Nat) : Int) = 21 := by decide
    have e2 : ((p.getWidth : Nat) : Int) = 25 := rfl
    have e3 : p.getX = p.m_xPos := rfl
    have hfalse : g.horizontalMiss p = false
        ↔ ¬ (p.m_xPos > toUInt16 (g.m_xOffset + 21)
            ∨ p.m_xPos + 25 < toUInt16 g.m_xOffset) := by
      rw [← PipeGate.horizontalMiss_iff_casts]
      simp
    rw [e1, e2, e3, hfalse]
    unfold toUInt16
    constructor
    · intro he
      omega
    · intro h0 he
      omega

/-- C5 (witness): releasing the button for 12 frames after the title screen gives a
reachable state whose next frame has the first gate at offset 44, one column inside the
player's right edge 45: the call is not rejected and returns `passingThrough`. -/
theorem C5_horizontal_test_witness :
    (updatedGate1 lowGaps (run lowGaps (Game.start lowGaps) (pressThenRelease 12))).1.m_xOffset
        = 44
      ∧ (updatedGate1 lowGaps
          (run lowGaps (Game.start lowGaps) (pressThenRelease 12))).1.horizontalMiss
            (movedPlayer (run lowGaps (Game.start lowGaps) (pressThenRelease 12)) false)
          = false
      ∧ HorizontalRule
          (updatedGate1 lowGaps (run lowGaps (Game.start lowGaps) (pressThenRelease 12))).1
          (movedPlayer (run lowGaps (Game.start lowGaps) (pressThenRelease 12)) false) :=
  ⟨by decide, by decide,
    (C5_horizontal_test lowGaps (run lowGaps (Game.start lowGaps) (pressThenRelease 12))
      false (Reachable.start.run _)).2.1.1⟩

/-! ## C6: the gap band -/

/-- C6: `reset` (and with it the constructor and every respawning `update`) sets
`m_gateY = 20 + r mod 44` for the value `r` drawn from the random source, which lies in
`[s_minMargin, LCD_HEIGHT - s_gapHeight - s_minMargin] = [20, 63]`, so that
`m_gateY + 45 + 20 ≤ 128`; an `update` that does not respawn and `checkInteraction` keep
`m_gateY`; and in every reachable state both gates have `m_gateY` in `[20, 63]`. -/
theorem C6_gateY_in_band (rnd : Nat → Nat) (s : Game) (hr : Reachable rnd s) :
    (∀ (calls : Nat) (g : PipeGate) (startX : Int),
        (PipeGate.reset rnd calls g startX).1.m_gateY = 20 + rnd calls % 44
          ∧ PipeGate.s_minMargin ≤ (PipeGate.reset rnd calls g startX).1.m_gateY
          ∧ (PipeGate.reset rnd calls g startX).1.m_gateY
              ≤ LCD_HEIGHT - PipeGate.s_gapHeight - PipeGate.s_minMargin
          ∧ (PipeGate.reset rnd calls g startX).1.m_gateY + 45 + 20 ≤ 128)
      ∧ (∀ (calls : Nat) (xOffset : Int),
          (PipeGate.new rnd calls xOffset).1.m_gateY = 20 + rnd calls % 44)
      ∧ (∀ (calls : Nat) (g : PipeGate),
          (PipeGate.update rnd calls g).1.m_gateY
            = if g.updateRespawns = true then 20 + rnd calls % 44 else g.m_gateY)
      ∧ (∀ (g : PipeGate) (p : Player), (g.checkInteraction p).2.m_gateY = g.m_gateY)
      ∧ (20 ≤ s.pipeGate1.m_gateY ∧ s.pipeGate1.m_gateY ≤ 63)
      ∧ (20 ≤ s.pipeGate2.m_gateY ∧ s.pipeGate2.m_gateY ≤ 63) := by
  refine ⟨?_, ?_, PipeGate.update_gateY rnd, PipeGate.checkInteraction_gateY,
    hr.gateY_band.1, hr.gateY_band.2⟩
  · intro calls g startX
    simp only [PipeGate.reset_eq, PipeGate.s_minMargin, LCD_HEIGHT, PipeGate.s_gapHeight]
    exact ⟨trivial, by omega, by omega, by omega⟩
  · intro calls xOffset
    unfold PipeGate.new
    rw [PipeGate.reset_eq]

/-- C6 (witness): after the frames `fallToFloor` with every draw equal to 43 both gaps
are at 63. -/
theorem C6_gateY_in_band_witness :
    (run lowGaps (Game.start lowGaps) fallToFloor).pipeGate1.m_gateY = 63
      ∧ (20 ≤ (run lowGaps (Game.start lowGaps) fallToFloor).pipeGate1.m_gateY
        ∧ (run lowGaps (Game.start lowGaps) fallToFloor).pipeGate1.m_gateY ≤ 63) :=
  ⟨by decide,
    (C6_gateY_in_band lowGaps (run lowGaps (Game.start lowGaps) fallToFloor)
      (Reachable.start.run fallToFloor)).2.2.2.2.1⟩

/-! ## C7: update and respawn -/

theorem respawnRule_of_no_wrap (rnd : Nat → Nat) (calls : Nat) (g : PipeGate)
    (h1 : -32766 ≤ g.m_xOffset) (h2 : g.m_xOffset ≤ 32767) : RespawnRule rnd calls g := by
  have e : toInt16 (g.m_xOffset - 2) = g.m_xOffset - 2 := by
    apply toInt16_of_isInt16
    unfold IsInt16
    omega
  have e21 : ((PipeGate.s_pipeImage.getWidth : Nat) : Int) = 21 := by decide
  unfold RespawnRule
  rw [e21]
  constructor
  · intro hle
    rw [PipeGate.update_eq, e, if_pos hle]
    rfl
  · intro hgt
    rw [PipeGate.update_eq, e, if_neg (by omega)]

/-- C7: for both gates of every state reachable from the initial state, and with any
number of earlier calls to the random source, `update` first lowers the offset by 2; if
the lowered value is at most `-21` (minus the pipe width) the resulting gate has offset
`LCD_WIDTH = 160`, is unscored and has its gap drawn anew; if the lowered value is above
`-21` the resulting offset is exactly the old offset minus 2. The same holds for every
gate whose offset is at least `-32766`, where the 16-bit decrement is exact. -/
theorem C7_update_respawn (rnd : Nat → Nat) (s : Game) (calls : Nat)
    (hr : Reachable rnd s) :
    RespawnRule rnd calls s.pipeGate1
      ∧ RespawnRule rnd calls s.pipeGate2
      ∧ (updatedGate1 rnd s = PipeGate.update rnd s.randCalls s.pipeGate1
          ∧ updatedGate2 rnd s
              = PipeGate.update rnd (updatedGate1 rnd s).2 s.pipeGate2)
      ∧ (∀ g : PipeGate, -32766 ≤ g.m_xOffset → g.m_xOffset ≤ 32767 →
          RespawnRule rnd calls g) := by
  have r := hr.staggered.even_in_range
  exact ⟨respawnRule_of_no_wrap rnd calls _ (by omega) (by omega),
    respawnRule_of_no_wrap rnd calls _ (by omega) (by omega), ⟨rfl, rfl⟩,
    fun g h1 h2 => respawnRule_of_no_wrap rnd calls g h1 h2⟩

/-- C7 (witness): one more released frame after `fallToFloor`, with every draw equal to
43, gives a reachable state whose first gate is at offset `-20`, scored; `update`
respawns it at offset 160, unscored, with the gap 63, and the second gate, at offset 70,
moves to 68. -/
theorem C7_update_respawn_witness :
    (run lowGaps (Game.start lowGaps) (fallToFloor ++ [false])).pipeGate1
        = PipeGate.mk (-20) 63 true
      ∧ PipeGate.update lowGaps 2
          (run lowGaps (Game.start lowGaps) (fallToFloor ++ [false])).pipeGate1
          = (PipeGate.mk 160 63 false, 3)
      ∧ PipeGate.update lowGaps 2
          (run lowGaps (Game.start lowGaps) (fallToFloor ++ [false])).pipeGate2
          = (PipeGate.mk 68 63 false, 2) :=
  ⟨by decide,
    ((C7_update_respawn lowGaps (run lowGaps (Game.start lowGaps) (fallToFloor ++ [false]))
      2 (Reachable.start.run _)).1.1 (by decide)).trans (by decide),
    ((C7_update_respawn lowGaps (run lowGaps (Game.start lowGaps) (fallToFloor ++ [false]))
      2 (Reachable.start.run _)).2.1.2 (by decide)).trans (by decide)⟩

/-! ## C8: the backdrop wrap -/

/-- C8: `ScrollingBackground::update` maps every offset in `(-160, 0]` to an offset in
`(-160, 0]`: the offset minus 1, with 160 (half the width of the 320 pixel tile) added
back when that is at most `-160`. So after any number `n` of calls, from offset 0 or from
any offset in `(-160, 0]`, the offset is in `(-160, 0]`. -/
theorem C8_backdrop_wrap (b : ScrollingBackground) (n : Nat)
    (hb : -160 < b.m_offset ∧ b.m_offset ≤ 0) :
    (-160 < b.update.m_offset ∧ b.update.m_offset ≤ 0)
      ∧ b.update.m_offset
          = (if b.m_offset - 1 ≤ -160 then b.m_offset - 1 + 160 else b.m_offset - 1)
      ∧ ((ScrollingBackground.s_bgImage.getWidth / 2 : Nat) : Int) = 160
      ∧ (-160 < (Nat.iterate ScrollingBackground.update n b).m_offset
          ∧ (Nat.iterate ScrollingBackground.update n b).m_offset ≤ 0)
      ∧ (-160 < (Nat.iterate ScrollingBackground.update n ⟨0⟩).m_offset
          ∧ (Nat.iterate ScrollingBackground.update n ⟨0⟩).m_offset ≤ 0) :=
  ⟨ScrollingBackground.update_range b hb, ScrollingBackground.update_offset b hb, by decide,
    ScrollingBackground.iterate_range n b hb,
    ScrollingBackground.iterate_range n ⟨0⟩ (by decide)⟩

/-- C8 (witness): from offset `-159` one call wraps to offset 0 and three calls end at
offset `-2`. -/
theorem C8_backdrop_wrap_witness :
    (-160 < (ScrollingBackground.mk (-159)).m_offset
        ∧ (ScrollingBackground.mk (-159)).m_offset ≤ 0)
      ∧ (ScrollingBackground.mk (-159)).update.m_offset = 0
      ∧ (Nat.iterate ScrollingBackground.update 3 (ScrollingBackground.mk (-159))).m_offset
          = -2
      ∧ (-160
          < (Nat.iterate ScrollingBackground.update 3 (ScrollingBackground.mk (-159))).m_offset
        ∧ (Nat.iterate ScrollingBackground.update 3 (ScrollingBackground.mk (-159))).m_offset
          ≤ 0) :=
  ⟨by decide, by decide, by decide,
    (C8_backdrop_wrap (ScrollingBackground.mk (-159)) 3 (by decide)).2.2.2.1⟩

/-! ## C9: restart -/

/-- C9: from every game-over state, a frame with the button pressed gives the state
`playing` with score 0, the player at its initial `m_yPos = 47`, both gates unscored, the
first at offset 70 and the second at offset 160, with both gaps drawn anew from the random
source, in `[20, 63]`. -/
theorem C9_restart (rnd : Nat → Nat) (s : Game) (hs : s.gameState = GameState.gameOver) :
    (frame rnd s true).gameState = GameState.playing
      ∧ (frame rnd s true).score = 0
      ∧ (frame rnd s true).player.m_yPos = Player.s_initialYPos
      ∧ (frame rnd s true).player.m_yPos = 47
      ∧ (frame rnd s true).pipeGate1.m_isScored = false
      ∧ (frame rnd s true).pipeGate2.m_isScored = false
      ∧ (frame rnd s true).pipeGate1.m_xOffset = 70
      ∧ (frame rnd s true).pipeGate2.m_xOffset = 160
      ∧ (frame rnd s true).pipeGate1.m_gateY = 20 + rnd s.randCalls % 44
      ∧ (frame rnd s true).pipeGate2.m_gateY = 20 + rnd (s.randCalls + 1) % 44
      ∧ (20 ≤ (frame rnd s true).pipeGate1.m_gateY
          ∧ (frame rnd s true).pipeGate1.m_gateY ≤ 63)
      ∧ (20 ≤ (frame rnd s true).pipeGate2.m_gateY
          ∧ (frame rnd s true).pipeGate2.m_gateY ≤ 63) := by
  rw [frame_gameOver rnd s true hs]
  unfold gameOverFrame
  simp only [if_true, PipeGate.reset_eq, toInt16_seventy, toInt16_LCD_WIDTH, Player.reset,
    Player.s_initialYPos]
  refine ⟨trivial, trivial, trivial, trivial, trivial, trivial, trivial, trivial, trivial,
    trivial, ?_, ?_⟩ <;> omega

/-- C9 (witness): the game-over state with score 7 restarts with score 0, the player at
47 and both gates unscored. -/
theorem C9_restart_witness :
    gameOverWithScore7.gameState = GameState.gameOver
      ∧ gameOverWithScore7.score = 7
      ∧ (frame lowGaps gameOverWithScore7 true).gameState = GameState.playing
      ∧ (frame lowGaps gameOverWithScore7 true).score = 0 :=
  ⟨by decide, by decide,
    (C9_restart lowGaps gameOverWithScore7 (by decide)).1,
    (C9_restart lowGaps gameOverWithScore7 (by decide)).2.1⟩

/-! ## C10: scoring -/

/-- C10 (counterexample): in the playing state `playingWithMaxScore`, whose score is
65535, the first gate returns `passingThrough` and the second `none`; the score after the
frame is 0, not 65536: the `uint16_t` counter wraps. -/
theorem C10_counterexample_score_wraps :
    playingWithMaxScore.gameState = GameState.playing
      ∧ (interaction1 lowGaps playingWithMaxScore false).1 = PipeInteraction.passingThrough
      ∧ (interaction2 lowGaps playingWithMaxScore false).1 = PipeInteraction.none
      ∧ (frame lowGaps playingWithMaxScore false).score = 0
      ∧ (frame lowGaps playingWithMaxScore false).score
          ≠ playingWithMaxScore.score + 1 := by
  decide

/-- C10 (amended): in a playing frame in which neither gate returns `colliding`: if at
least one gate returns `passingThrough` (also when both do) the state stays `playing` and
the score becomes `(score + 1) mod 65536`, which is `score + 1` for every score below
65535 and 0 at 65535; if both gates return `none` the score and the state are unchanged. -/
theorem C10_passingThrough_scores (rnd : Nat → Nat) (s : Game) (buttonPressed : Bool)
    (hs : s.gameState = GameState.playing)
    (h1 : (interaction1 rnd s buttonPressed).1 ≠ PipeInteraction.colliding)
    (h2 : (interaction2 rnd s buttonPressed).1 ≠ PipeInteraction.colliding) :
    (((interaction1 rnd s buttonPressed).1 = PipeInteraction.passingThrough
          ∨ (interaction2 rnd s buttonPressed).1 = PipeInteraction.passingThrough) →
        (frame rnd s buttonPressed).gameState = GameState.playing
          ∧ (frame rnd s buttonPressed).score = (s.score + 1) % 65536
          ∧ (s.score < 65535 → (frame rnd s buttonPressed).score = s.score + 1)
          ∧ (s.score = 65535 → (frame rnd s buttonPressed).score = 0))
      ∧ (((interaction1 rnd s buttonPressed).1 = PipeInteraction.none
          ∧ (interaction2 rnd s buttonPressed).1 = PipeInteraction.none) →
        (frame rnd s buttonPressed).gameState = GameState.playing
          ∧ (frame rnd s buttonPressed).score = s.score) := by
  rw [frame_playing rnd s buttonPressed hs, playingFrame_gameState, playingFrame_score, hs]
  generalize (interaction1 rnd s buttonPressed).1 = a at h1
  generalize (interaction2 rnd s buttonPressed).1 = c at h2
  constructor
  · intro hp
    have hm : gateInteraction a c = 2 := by
      cases a <;> cases c <;> simp_all [gateInteraction, PipeInteraction.toNat]
    rw [hm]
    simp only [if_true]
    refine ⟨by simp, trivial, ?_, ?_⟩
    · intro hlt
      omega
    · intro he
      omega
  · intro hn
    have hm : gateInteraction a c = 0 := by
      rw [hn.1, hn.2]
      rfl
    rw [hm]
    simp

/-- C10 (witness): releasing the button for 12 frames after the title screen, with every
gap at its lowest position, gives a playing state with score 0 whose next frame has the
first gate returning `passingThrough`; the score after that frame is 1. -/
theorem C10_passingThrough_scores_witness :
    (run lowGaps (Game.start lowGaps) (pressThenRelease 12)).gameState = GameState.playing
      ∧ (interaction1 lowGaps (run lowGaps (Game.start lowGaps) (pressThenRelease 12))
          false).1 = PipeInteraction.passingThrough
      ∧ (interaction2 lowGaps (run lowGaps (Game.start lowGaps) (pressThenRelease 12))
          false).1 = PipeInteraction.none
      ∧ (run lowGaps (Game.start lowGaps) (pressThenRelease 12)).score = 0
      ∧ (frame lowGaps (run lowGaps (Game.start lowGaps) (pressThenRelease 12))
          false).score = 0 + 1 :=
  ⟨by decide, by decide, by decide, by decide,
    (by
      have h := ((C10_passingThrough_scores lowGaps
        (run lowGaps (Game.start lowGaps) (pressThenRelease 12)) false (by decide)
        (by decide) (by decide)).1 (Or.inl (by decide))).2.2.1
      exact h (by decide))⟩

/-! ## C11: fall, fly and reset -/

/-- C11: for every `uint16_t` value of `m_yPos`, `fall` yields `m_yPos + 3` when
`m_yPos < 111` and leaves it unchanged otherwise; `fly` yields `m_yPos - 3` when
`m_yPos > 3` and leaves it unchanged otherwise; neither result leaves the `uint16_t` range
nor wraps (the integer value of the result of `fly` is `m_yPos - 3`, never below 0);
`reset` yields 47; none of the three changes `m_xPos`. -/
theorem C11_fall_fly_reset (p : Player) (hp : IsUInt16 p.m_yPos) :
    p.fall.m_yPos = (if p.m_yPos < 111 then p.m_yPos + 3 else p.m_yPos)
      ∧ p.fly.m_yPos = (if p.m_yPos > 3 then p.m_yPos - 3 else p.m_yPos)
      ∧ IsUInt16 p.fall.m_yPos
      ∧ IsUInt16 p.fly.m_yPos
      ∧ (p.m_yPos > 3 → (p.fly.m_yPos : Int) = (p.m_yPos : Int) - 3)
      ∧ p.fly.m_yPos ≤ p.m_yPos
      ∧ p.m_yPos ≤ p.fall.m_yPos
      ∧ p.reset.m_yPos = 47
      ∧ p.fall.m_xPos = p.m_xPos ∧ p.fly.m_xPos = p.m_xPos ∧ p.reset.m_xPos = p.m_xPos := by
  have hfall := Player.fall_yPos p
  have hfly := Player.fly_yPos p hp
  unfold IsUInt16 at hp ⊢
  refine ⟨hfall, hfly, ?_, ?_, ?_, ?_, ?_, rfl, Player.fall_xPos p, Player.fly_xPos p, rfl⟩
  · rw [hfall]
    split <;> omega
  · rw [hfly]
    split <;> omega
  · intro h
    rw [hfly, if_pos h]
    omega
  · rw [hfly]
    split <;> omega
  · rw [hfall]
    split <;> omega

/-- C11 (witness): from `m_yPos = 110` `fall` gives 113 and from 111 it gives 111; from 5
`fly` gives 2 and from 3 it gives 3. -/
theorem C11_fall_fly_reset_witness :
    IsUInt16 (Player.mk 20 110).m_yPos
      ∧ (Player.mk 20 110).fall.m_yPos = 113
      ∧ (Player.mk 20 111).fall.m_yPos = 111
      ∧ (Player.mk 20 5).fly.m_yPos = 2
      ∧ (Player.mk 20 3).fly.m_yPos = 3
      ∧ (Player.mk 20 110).reset.m_yPos = 47 :=
  ⟨by decide, by decide, by decide, by decide, by decide,
    (C11_fall_fly_reset (Player.mk 20 110) (by decide)).2.2.2.2.2.2.2.1⟩

/-! ## C12: the frames outside playing -/

/-- C12: the initial state is the title screen. A title frame with the button pressed
changes the game state to `playing` and nothing else. A title or game-over frame without
the button pressed leaves the whole state unchanged: game state, score, player, both
gates and the backdrop. A game-over frame with the button pressed leads to `playing`. -/
theorem C12_frames_outside_playing (rnd : Nat → Nat) (s : Game)
    (hs : s.gameState = GameState.titleScreen ∨ s.gameState = GameState.gameOver) :
    (Game.start rnd).gameState = GameState.titleScreen
      ∧ (s.gameState = GameState.titleScreen →
          frame rnd s true = { s with gameState := GameState.playing })
      ∧ frame rnd s false = s
      ∧ (frame rnd s true).gameState = GameState.playing := by
  refine ⟨rfl, ?_, ?_, ?_⟩
  · intro ht
    rw [frame_titleScreen rnd s true ht]
    rfl
  · rcases hs with ht | hg
    · rw [frame_titleScreen rnd s false ht]
      rfl
    · rw [frame_gameOver rnd s false hg]
      rfl
  · rcases hs with ht | hg
    · rw [frame_titleScreen rnd s true ht]
      rfl
    · rw [frame_gameOver rnd s true hg]
      rfl

/-- C12 (witness): the game-over state with score 7 is unchanged by a frame without the
button and is `playing` after a frame with it. -/
theorem C12_frames_outside_playing_witness :
    gameOverWithScore7.gameState = GameState.gameOver
      ∧ frame lowGaps gameOverWithScore7 false = gameOverWithScore7
      ∧ (frame lowGaps gameOverWithScore7 true).gameState = GameState.playing :=
  ⟨by decide,
    (C12_frames_outside_playing lowGaps gameOverWithScore7 (Or.inr (by decide))).2.2.1,
    (C12_frames_outside_playing lowGaps gameOverWithScore7 (Or.inr (by decide))).2.2.2⟩

/-! ## C13: the score outside playing -/

/-- C13 (counterexample): the game-over state with score 7 has score 0 after a frame with
the button pressed: the restart changes the score outside `playing`. -/
theorem C13_counterexample_restart_clears_score :
    gameOverWithScore7.gameState = GameState.gameOver
      ∧ gameOverWithScore7.score = 7
      ∧ (frame lowGaps gameOverWithScore7 true).score = 0
      ∧ (frame lowGaps gameOverWithScore7 true).score ≠ gameOverWithScore7.score := by
  decide

/-- C13 (amended): a frame whose state before is the title screen (with any button input),
or game over with the button not pressed, leaves the score unchanged; a game-over frame
with the button pressed sets the score to 0. So outside `playing` the score changes only
on the restart, and only when it was not 0. -/
theorem C13_score_outside_playing (rnd : Nat → Nat) (s : Game) (buttonPressed : Bool)
    (hs : s.gameState = GameState.titleScreen ∨ s.gameState = GameState.gameOver) :
    (s.gameState = GameState.titleScreen → (frame rnd s buttonPressed).score = s.score)
      ∧ (buttonPressed = false → (frame rnd s buttonPressed).score = s.score)
      ∧ (s.gameState = GameState.gameOver → buttonPressed = true →
          (frame rnd s buttonPressed).score = 0)
      ∧ ((frame rnd s buttonPressed).score = s.score
          ∨ (s.gameState = GameState.gameOver ∧ buttonPressed = true
              ∧ (frame rnd s buttonPressed).score = 0)) := by
  rcases hs with ht | hg
  · have e : (frame rnd s buttonPressed).score = s.score := by
      rw [frame_titleScreen rnd s buttonPressed ht]
      unfold titleScreenFrame
      split <;> rfl
    refine ⟨fun _ => e, fun _ => e, ?_, Or.inl e⟩
    intro hg
    rw [ht] at hg
    exact absurd hg (by decide)
  · cases buttonPressed with
    | false =>
      have e : (frame rnd s false).score = s.score := by
        rw [frame_gameOver rnd s false hg]
        rfl
      exact ⟨fun _ => e, fun _ => e, fun _ h => absurd h (by decide), Or.inl e⟩
    | true =>
      have e : (frame rnd s true).score = 0 := by
        rw [frame_gameOver rnd s true hg]
        rfl
      refine ⟨?_, fun h => absurd h (by decide), fun _ _ => e, Or.inr ⟨hg, rfl, e⟩⟩
      intro ht
      rw [hg] at ht
      exact absurd ht (by decide)

/-- C13 (witness): the game-over state with score 7 keeps its score in a frame without the
button. -/
theorem C13_score_outside_playing_witness :
    gameOverWithScore7.gameState = GameState.gameOver
      ∧ (frame lowGaps gameOverWithScore7 false).score = 7 :=
  ⟨by decide,
    (C13_score_outside_playing lowGaps gameOverWithScore7 false (Or.inr (by decide))).2.1
      rfl⟩

/-! ## C14: the scored flag -/

/-- C14: `reset` and a respawning `update` clear `m_isScored`; an `update` that does not
respawn keeps `m_gateY` and `m_isScored`; `checkInteraction` keeps `m_xOffset` and
`m_gateY`, never clears a set `m_isScored`, leaves the gate unchanged whenever it returns
`none` or `colliding`, and returns `passingThrough` exactly when it turns `m_isScored`
from false to true. -/
theorem C14_scored_flag (rnd : Nat → Nat) (calls : Nat) (g : PipeGate) (p : Player)
    (startX : Int) :
    (PipeGate.reset rnd calls g startX).1.m_isScored = false
      ∧ (g.updateRespawns = true → (PipeGate.update rnd calls g).1.m_isScored = false)
      ∧ (g.updateRespawns = false →
          (PipeGate.update rnd calls g).1.m_gateY = g.m_gateY
            ∧ (PipeGate.update rnd calls g).1.m_isScored = g.m_isScored)
      ∧ (g.checkInteraction p).2.m_xOffset = g.m_xOffset
      ∧ (g.checkInteraction p).2.m_gateY = g.m_gateY
      ∧ (g.m_isScored = true → (g.checkInteraction p).2.m_isScored = true)
      ∧ ((g.checkInteraction p).1 = PipeInteraction.none
          ∨ (g.checkInteraction p).1 = PipeInteraction.colliding →
          (g.checkInteraction p).2 = g)
      ∧ ((g.checkInteraction p).1 = PipeInteraction.passingThrough
          ↔ (g.m_isScored = false ∧ (g.checkInteraction p).2.m_isScored = true)) := by
  refine ⟨?_, ?_, ?_, PipeGate.checkInteraction_xOffset g p,
    PipeGate.checkInteraction_gateY g p, ?_, ?_, ?_⟩
  · rw [PipeGate.reset_eq]
  · intro h
    rw [PipeGate.update_eq, if_pos ((PipeGate.updateRespawns_iff g).mp h)]
  · intro h
    rw [PipeGate.update_of_not_respawns rnd calls g h]
    exact ⟨rfl, rfl⟩
  · intro h
    rw [(PipeGate.checkInteraction_scored_ne g p h).2]
    exact h
  · intro h
    by_cases hp : (g.checkInteraction p).1 = PipeInteraction.passingThrough
    · rw [hp] at h
      rcases h with h | h <;> exact absurd h (by decide)
    · rw [PipeGate.checkInteraction_eq] at hp ⊢
      by_cases h1 : g.horizontalMiss p = true
      · rw [if_pos h1]
      · rw [if_neg h1] at hp ⊢
        by_cases h2 : p.m_yPos < g.m_gateY ∨ p.m_yPos + 17 > g.m_gateY + 45
        · rw [if_pos h2]
        · rw [if_neg h2] at hp ⊢
          by_cases h3 : g.m_isScored = true
          · rw [if_pos h3]
          · rw [if_neg h3] at hp
            exact absurd rfl hp
  · constructor
    · intro hp
      have h := PipeGate.checkInteraction_passing g p hp
      exact ⟨h.2.2.1, by rw [h.2.2.2]⟩
    · intro h
      by_contra hp
      rw [PipeGate.checkInteraction_eq] at hp h
      by_cases h1 : g.horizontalMiss p = true
      · rw [if_pos h1] at h
        rw [h.1] at h
        exact absurd h.2 (by decide)
      · rw [if_neg h1] at hp h
        by_cases h2 : p.m_yPos < g.m_gateY ∨ p.m_yPos + 17 > g.m_gateY + 45
        · rw [if_pos h2] at h
          rw [h.1] at h
          exact absurd h.2 (by decide)
        · rw [if_neg h2] at hp h
          by_cases h3 : g.m_isScored = true
          · rw [h.1] at h3
            exact absurd h3 (by decide)
          · rw [if_neg h3] at hp
            exact hp rfl

/-- C14 (witness): an unscored gate over the player with the player above the gap returns
`colliding` and stays unscored; a scored gate moved by `update` from offset 30 to 28 stays
scored with its gap unchanged. -/
theorem C14_scored_flag_witness :
    ((PipeGate.mk 30 40 false).checkInteraction (Player.mk 20 30)).1
        = PipeInteraction.colliding
      ∧ ((PipeGate.mk 30 40 false).checkInteraction (Player.mk 20 30)).2
        = PipeGate.mk 30 40 false
      ∧ (PipeGate.mk 30 40 true).updateRespawns = false
      ∧ (PipeGate.update lowGaps 2 (PipeGate.mk 30 40 true)).1.m_isScored = true :=
  ⟨by decide,
    (C14_scored_flag lowGaps 2 (PipeGate.mk 30 40 false) (Player.mk 20 30) 160).2.2.2.2.2.2.1
      (Or.inr (by decide)),
    by decide,
    ((C14_scored_flag lowGaps 2 (PipeGate.mk 30 40 true) (Player.mk 20 30) 160).2.2.1
      (by decide)).2⟩

/-! ## C15: the order inside a playing frame -/

/-- C15: in a playing frame the player is moved first (`fly` if the button is pressed, else
`fall`), both gates and the backdrop are advanced by `update` (the first gate before the
second), and each gate's `checkInteraction` is evaluated on the updated gate against the
moved player; the gates, the game state and the score after the frame are those that the
two results on these post-update positions give. -/
theorem C15_order_in_playing_frame (rnd : Nat → Nat) (s : Game) (buttonPressed : Bool)
    (hs : s.gameState = GameState.playing) :
    (frame rnd s buttonPressed).player
        = (if buttonPressed = true then s.player.fly else s.player.fall)
      ∧ (frame rnd s buttonPressed).background = s.background.update
      ∧ (frame rnd s buttonPressed).pipeGate1
        = ((PipeGate.update rnd s.randCalls s.pipeGate1).1.checkInteraction
            (if buttonPressed = true then s.player.fly else s.player.fall)).2
      ∧ (frame rnd s buttonPressed).pipeGate2
        = ((PipeGate.update rnd (PipeGate.update rnd s.randCalls s.pipeGate1).2
              s.pipeGate2).1.checkInteraction
            (if buttonPressed = true then s.player.fly else s.player.fall)).2
      ∧ (frame rnd s buttonPressed).gameState
        = (if gateInteraction
              ((PipeGate.update rnd s.randCalls s.pipeGate1).1.checkInteraction
                (if buttonPressed = true then s.player.fly else s.player.fall)).1
              ((PipeGate.update rnd (PipeGate.update rnd s.randCalls s.pipeGate1).2
                  s.pipeGate2).1.checkInteraction
                (if buttonPressed = true then s.player.fly else s.player.fall)).1 = 1
            then GameState.gameOver else GameState.playing)
      ∧ (frame rnd s buttonPressed).score
        = (if gateInteraction
              ((PipeGate.update rnd s.randCalls s.pipeGate1).1.checkInteraction
                (if buttonPressed = true then s.player.fly else s.player.fall)).1
              ((PipeGate.update rnd (PipeGate.update rnd s.randCalls s.pipeGate1).2
                  s.pipeGate2).1.checkInteraction
                (if buttonPressed = true then s.player.fly else s.player.fall)).1 = 2
            then (s.score + 1) % 65536 else s.score) := by
  rw [frame_playing rnd s buttonPressed hs, playingFrame_player, playingFrame_background,
    playingFrame_pipeGate1, playingFrame_pipeGate2, playingFrame_gameState,
    playingFrame_score, hs]
  exact ⟨rfl, rfl, rfl, rfl, rfl, rfl⟩

/-- C15 (witness): in the state `gateAboutToArrive` with the button released the frame
scores: the first gate is tested at its updated offset 44 against the player moved to
`m_yPos = 50`, which is inside the gap. Tested before `update` (offset 46) the gate would
miss the player, and tested against the player before the move (`m_yPos = 47`) it would
collide. -/
theorem C15_order_in_playing_frame_witness :
    gateAboutToArrive.gameState = GameState.playing
      ∧ (frame lowGaps gateAboutToArrive false).player = Player.mk 20 50
      ∧ (frame lowGaps gateAboutToArrive false).pipeGate1 = PipeGate.mk 44 50 true
      ∧ (frame lowGaps gateAboutToArrive false).score = 1
      ∧ (frame lowGaps gateAboutToArrive false).gameState = GameState.playing
      ∧ (gateAboutToArrive.pipeGate1.checkInteraction gateAboutToArrive.player.fall).1
          = PipeInteraction.none
      ∧ ((PipeGate.update lowGaps 2 gateAboutToArrive.pipeGate1).1.checkInteraction
          gateAboutToArrive.player).1 = PipeInteraction.colliding :=
  ⟨by decide,
    (C15_order_in_playing_frame lowGaps gateAboutToArrive false (by decide)).1.trans
      (by decide),
    (C15_order_in_playing_frame lowGaps gateAboutToArrive false (by decide)).2.2.1.trans
      (by decide),
    by decide, by decide, by decide, by decide⟩

/-! ## C17: the stagger of the two gates -/

/-- C17: in every state reachable from the initial state both gates' offsets are even and
lie in `[-20, 160]`, and the second gate is 90 ahead of the first or the first 92 ahead of
the second. So at least one gate fails the horizontal test against the player, in the
state itself and, in a frame with any button input, for the updated gates and the moved
player; at least one of the two `checkInteraction` results of the frame is `none`, and
their bitwise or is never 3: it is the priority merge of the two results. -/
theorem C17_gates_staggered (rnd : Nat → Nat) (s : Game) (buttonPressed : Bool)
    (hr : Reachable rnd s) :
    (s.pipeGate1.m_xOffset % 2 = 0 ∧ s.pipeGate2.m_xOffset % 2 = 0)
      ∧ (-20 ≤ s.pipeGate1.m_xOffset ∧ s.pipeGate1.m_xOffset ≤ 160)
      ∧ (-20 ≤ s.pipeGate2.m_xOffset ∧ s.pipeGate2.m_xOffset ≤ 160)
      ∧ (s.pipeGate2.m_xOffset - s.pipeGate1.m_xOffset = 90
          ∨ s.pipeGate1.m_xOffset - s.pipeGate2.m_xOffset = 92)
      ∧ (s.pipeGate1.horizontalMiss s.player = true
          ∨ s.pipeGate2.horizontalMiss s.player = true)
      ∧ ((updatedGate1 rnd s).1.horizontalMiss (movedPlayer s buttonPressed) = true
          ∨ (updatedGate2 rnd s).1.horizontalMiss (movedPlayer s buttonPressed) = true)
      ∧ ((interaction1 rnd s buttonPressed).1 = PipeInteraction.none
          ∨ (interaction2 rnd s buttonPressed).1 = PipeInteraction.none)
      ∧ gateInteraction (interaction1 rnd s buttonPressed).1
          (interaction2 rnd s buttonPressed).1 ≠ 3
      ∧ gateInteraction (interaction1 rnd s buttonPressed).1
          (interaction2 rnd s buttonPressed).1
        = (priorityMerge (interaction1 rnd s buttonPressed).1
            (interaction2 rnd s buttonPressed).1).toNat := by
  have hst := hr.staggered
  have hu := GatesStaggered.update hst rnd s.randCalls (updatedGate1 rnd s).2
  have hp : (movedPlayer s buttonPressed).m_xPos = 20 := by
    rw [movedPlayer_xPos, hr.player_xPos]
  have hnone := Reachable.one_interaction_none hr buttonPressed
  refine ⟨?_, ?_, ?_, ?_, GatesStaggered.one_miss hst s.player hr.player_xPos,
    GatesStaggered.one_miss hu (movedPlayer s buttonPressed) hp, hnone, ?_, ?_⟩
  · unfold GatesStaggered at hst
    omega
  · unfold GatesStaggered at hst
    omega
  · unfold GatesStaggered at hst
    omega
  · unfold GatesStaggered at hst
    omega
  · generalize (interaction1 rnd s buttonPressed).1 = a at hnone
    generalize (interaction2 rnd s buttonPressed).1 = c at hnone
    cases a <;> cases c <;> simp_all [gateInteraction, PipeInteraction.toNat]
  · generalize (interaction1 rnd s buttonPressed).1 = a at hnone
    generalize (interaction2 rnd s buttonPressed).1 = c at hnone
    cases a <;> cases c <;> simp_all [gateInteraction, PipeInteraction.toNat, priorityMerge]

/-- C17 (witness): after the frames `climbToCeiling` with every draw equal to 0 the first
gate has respawned and is at offset 154, 92 ahead of the second at offset 62. -/
theorem C17_gates_staggered_witness :
    (run highGaps (Game.start highGaps) climbToCeiling).pipeGate1.m_xOffset = 154
      ∧ (run highGaps (Game.start highGaps) climbToCeiling).pipeGate2.m_xOffset = 62
      ∧ ((run highGaps (Game.start highGaps) climbToCeiling).pipeGate2.m_xOffset
            - (run highGaps (Game.start highGaps) climbToCeiling).pipeGate1.m_xOffset = 90
          ∨ (run highGaps (Game.start highGaps) climbToCeiling).pipeGate1.m_xOffset
            - (run highGaps (Game.start highGaps) climbToCeiling).pipeGate2.m_xOffset
              = 92) :=
  ⟨by decide, by decide,
    (C17_gates_staggered highGaps (run highGaps (Game.start highGaps) climbToCeiling) true
      (Reachable.start.run climbToCeiling)).2.2.2.1⟩

/-! ## C18: the window of the horizontal test -/

/-- C18: for the player at `x = 20` (width 25) and every `int16_t` offset of the gate,
with `pipeLeft` and `pipeRight` the casts to `uint16_t` of the offset and of the offset
plus 21, the horizontal test of `checkInteraction` accepts exactly when
`0 ≤ m_xOffset ≤ 45`; for every negative offset `checkInteraction` returns `none` and
leaves the gate unchanged. -/
theorem C18_overlap_window (g : PipeGate) (p : Player) (hp : p.m_xPos = 20)
    (hg : IsInt16 g.m_xOffset) :
    p.getWidth = 25
      ∧ PipeGate.s_pipeImage.getWidth = 21
      ∧ g.horizontalMiss p
        = (decide (p.getX > toUInt16 (g.m_xOffset + 21))
            || decide (p.getX + p.getWidth < toUInt16 g.m_xOffset))
      ∧ (g.horizontalMiss p = false ↔ (0 ≤ g.m_xOffset ∧ g.m_xOffset ≤ 45))
      ∧ (g.m_xOffset < 0 → g.horizontalMiss p = true)
      ∧ (g.m_xOffset < 0 → g.checkInteraction p = (PipeInteraction.none, g)) := by
  have hw := PipeGate.horizontalMiss_player20 g p hp hg
  have hneg : g.m_xOffset < 0 → g.horizontalMiss p = true := by
    intro h
    by_contra hm
    have hf : g.horizontalMiss p = false := by simpa using hm
    have := hw.mp hf
    omega
  exact ⟨rfl, rfl, rfl, hw, hneg,
    fun h => PipeGate.checkInteraction_of_miss g p (hneg h)⟩

/-- C18 (witness): the gate at offset 45 is accepted for the player at `x = 20`, the gates
at offsets 46 and `-2` are rejected. -/
theorem C18_overlap_window_witness :
    (Player.mk 20 47).m_xPos = 20
      ∧ IsInt16 (PipeGate.mk 45 40 false).m_xOffset
      ∧ (PipeGate.mk 45 40 false).horizontalMiss (Player.mk 20 47) = false
      ∧ (PipeGate.mk 46 40 false).horizontalMiss (Player.mk 20 47) = true
      ∧ (PipeGate.mk (-2) 40 false).checkInteraction (Player.mk 20 47)
          = (PipeInteraction.none, PipeGate.mk (-2) 40 false) :=
  ⟨by decide, by decide,
    (C18_overlap_window (PipeGate.mk 45 40 false) (Player.mk 20 47) rfl (by decide)).2.2.2.1.mpr
      (by decide),
    by decide,
    (C18_overlap_window (PipeGate.mk (-2) 40 false) (Player.mk 20 47) rfl
      (by decide)).2.2.2.2.2 (by decide)⟩

/-! ## The score text: lemmas -/

theorem toDigitsCore_step (fuel n : Nat) (ds : List Char) (hf : 0 < fuel) (h : 10 ≤ n) :
    Nat.toDigitsCore 10 fuel n ds
      = Nat.toDigitsCore 10 (fuel - 1) (n / 10) (Nat.digitChar (n % 10) :: ds) := by
  cases fuel with
  | zero => exact absurd hf (by decide)
  | succ f =>
    have h0 : n / 10 ≠ 0 := by omega
    simp [Nat.toDigitsCore, h0]

theorem toDigitsCore_last (fuel n : Nat) (ds : List Char) (hf : 0 < fuel) (h : n < 10) :
    Nat.toDigitsCore 10 fuel n ds = Nat.digitChar n :: ds := by
  cases fuel with
  | zero => exact absurd hf (by decide)
  | succ f =>
    have h0 : n / 10 = 0 := by omega
    have h1 : n % 10 = n := by omega
    simp [Nat.toDigitsCore, h0, h1]

theorem toDigits_one (n : Nat) (h : n < 10) : Nat.toDigits 10 n = [Nat.digitChar n] := by
  unfold Nat.toDigits
  rw [toDigitsCore_last _ _ _ (by omega) h]

theorem toDigits_two (n : Nat) (h1 : 10 ≤ n) (h2 : n < 100) :
    Nat.toDigits 10 n = [Nat.digitChar (n / 10), Nat.digitChar (n % 10)] := by
  unfold Nat.toDigits
  rw [toDigitsCore_step _ _ _ (by omega) h1, toDigitsCore_last _ _ _ (by omega) (by omega)]

theorem toDigits_three (n : Nat) (h1 : 100 ≤ n) (h2 : n < 1000) :
    Nat.toDigits 10 n
      = [Nat.digitChar (n / 100), Nat.digitChar (n / 10 % 10), Nat.digitChar (n % 10)] := by
  unfold Nat.toDigits
  have e : n / 10 / 10 = n / 100 := by omega
  rw [toDigitsCore_step _ _ _ (by omega) (by omega),
    toDigitsCore_step _ _ _ (by omega) (by omega),
    toDigitsCore_last _ _ _ (by omega) (by omega), e]

theorem toDigits_four (n : Nat) (h1 : 1000 ≤ n) (h2 : n < 10000) :
    Nat.toDigits 10 n
      = [Nat.digitChar (n / 1000), Nat.digitChar (n / 100 % 10),
          Nat.digitChar (n / 10 % 10), Nat.digitChar (n % 10)] := by
  unfold Nat.toDigits
  have e1 : n / 10 / 10 / 10 = n / 1000 := by omega
  have e2 : n / 10 / 10 % 10 = n / 100 % 10 := by omega
  rw [toDigitsCore_step _ _ _ (by omega) (by omega),
    toDigitsCore_step _ _ _ (by omega) (by omega),
    toDigitsCore_step _ _ _ (by omega) (by omega),
    toDigitsCore_last _ _ _ (by omega) (by omega), e1, e2]

theorem toDigits_five (n : Nat) (h1 : 10000 ≤ n) (h2 : n < 100000) :
    Nat.toDigits 10 n
      = [Nat.digitChar (n / 10000), Nat.digitChar (n / 1000 % 10),
          Nat.digitChar (n / 100 % 10), Nat.digitChar (n / 10 % 10),
          Nat.digitChar (n % 10)] := by
  unfold Nat.toDigits
  have e1 : n / 10 / 10 / 10 / 10 = n / 10000 := by omega
  have e2 : n / 10 / 10 / 10 % 10 = n / 1000 % 10 := by omega
  have e3 : n / 10 / 10 % 10 = n / 100 % 10 := by omega
  rw [toDigitsCore_step _ _ _ (by omega) (by omega),
    toDigitsCore_step _ _ _ (by omega) (by omega),
    toDigitsCore_step _ _ _ (by omega) (by omega),
    toDigitsCore_step _ _ _ (by omega) (by omega),
    toDigitsCore_last _ _ _ (by omega) (by omega), e1, e2, e3]

theorem digitChar_toNat (d : Nat) (h : d < 10) : (Nat.digitChar d).toNat - 48 = d := by
  interval_cases d <;> rfl

theorem digitChar_isDigit (d : Nat) (h : d < 10) : (Nat.digitChar d).isDigit = true := by
  interval_cases d <;> rfl

/-- The three characters of the decimal digits of a number below 1000. -/
theorem scoreString_below_1000 (n : Nat) (h : n < 1000) :
    scoreString n
      = [Nat.digitChar (n / 100), Nat.digitChar (n / 10 % 10), Nat.digitChar (n % 10)] := by
  unfold scoreString snprintf printfU03
  have hz : Nat.digitChar 0 = '0' := rfl
  by_cases h1 : n < 10
  · have a : n / 100 = 0 := by omega
    have b : n / 10 % 10 = 0 := by omega
    have c : n % 10 = n := by omega
    rw [toDigits_one n h1, a, b, c, hz]
    rfl
  · by_cases h2 : n < 100
    · have a : n / 100 = 0 := by omega
      have b : n / 10 % 10 = n / 10 := by omega
      rw [toDigits_two n (by omega) h2, a, b, hz]
      rfl
    · rw [toDigits_three n (by omega) h]
      rfl

theorem scoreString_four_digits (n : Nat) (h1 : 1000 ≤ n) (h2 : n < 10000) :
    scoreString n = scoreString (n / 10) := by
  rw [scoreString_below_1000 (n / 10) (by omega)]
  unfold scoreString snprintf printfU03
  have a : n / 10 / 100 = n / 1000 := by omega
  have b : n / 10 / 10 % 10 = n / 100 % 10 := by omega
  rw [toDigits_four n h1 h2, a, b]
  rfl

theorem scoreString_five_digits (n : Nat) (h1 : 10000 ≤ n) (h2 : n < 100000) :
    scoreString n = scoreString (n / 100) := by
  rw [scoreString_below_1000 (n / 100) (by omega)]
  unfold scoreString snprintf printfU03
  have a : n / 100 / 100 = n / 10000 := by omega
  have b : n / 100 / 10 % 10 = n / 1000 % 10 := by omega
  rw [toDigits_five n h1 h2, a, b]
  rfl

theorem scoreString_value_below_1000 (n : Nat) (h : n < 1000) :
    (scoreString n).length = 3
      ∧ (∀ c ∈ scoreString n, c.isDigit = true)
      ∧ decimalValue (scoreString n) = n := by
  rw [scoreString_below_1000 n h]
  refine ⟨rfl, ?_, ?_⟩
  · intro c hc
    simp only [List.mem_cons, List.mem_singleton, List.not_mem_nil, or_false] at hc
    rcases hc with hc | hc | hc <;> rw [hc] <;> apply digitChar_isDigit <;> omega
  · unfold decimalValue
    simp only [List.foldl]
    rw [digitChar_toNat _ (by omega : n / 100 < 10),
      digitChar_toNat _ (by omega : n / 10 % 10 < 10),
      digitChar_toNat _ (by omega : n % 10 < 10)]
    omega

/-! ## C16: the score text -/

/-- C16 (counterexample): for the score 1000 the `"%03u"` conversion produces the four
characters `1000`, of which the 4-byte buffer keeps three: the rendered text is `100`,
whose value is 100, not the score. -/
theorem C16_counterexample_four_digit_score :
    IsUInt16 1000
      ∧ printfU03 1000 = ['1', '0', '0', '0']
      ∧ scoreString 1000 = ['1', '0', '0']
      ∧ decimalValue (scoreString 1000) = 100
      ∧ decimalValue (scoreString 1000) ≠ 1000
      ∧ frameScoreText { playingWithMaxScore with score := 1000 } = some ['1', '0', '0'] := by
  decide

/-- C16 (amended): for every `uint16_t` score the text rendered in the playing and
game-over frames is exactly three decimal digit characters. For every score below 1000
they are the zero-padded decimal representation of the score; for a score from 1000 to
9999 they are the first three of its four digits (the text of `score / 10`), and for a
score from 10000 to 65535 the first three of its five digits (the text of
`score / 100`). -/
theorem C16_score_text (s : Game) (hu : IsUInt16 s.score)
    (hs : s.gameState = GameState.playing ∨ s.gameState = GameState.gameOver) :
    frameScoreText s = some (scoreString s.score)
      ∧ (scoreString s.score).length = 3
      ∧ (∀ c ∈ scoreString s.score, c.isDigit = true)
      ∧ (s.score < 1000 →
          scoreString s.score
              = [Nat.digitChar (s.score / 100), Nat.digitChar (s.score / 10 % 10),
                  Nat.digitChar (s.score % 10)]
            ∧ decimalValue (scoreString s.score) = s.score)
      ∧ (1000 ≤ s.score → s.score < 10000 →
          scoreString s.score = scoreString (s.score / 10)
            ∧ decimalValue (scoreString s.score) = s.score / 10)
      ∧ (10000 ≤ s.score →
          scoreString s.score = scoreString (s.score / 100)
            ∧ decimalValue (scoreString s.score) = s.score / 100) := by
  unfold IsUInt16 at hu
  have htext : frameScoreText s = some (scoreString s.score) := by
    unfold frameScoreText
    rcases hs with h | h <;> rw [h]
  have hshape : (scoreString s.score).length = 3
      ∧ (∀ c ∈ scoreString s.score, c.isDigit = true) := by
    by_cases h1 : s.score < 1000
    · exact ⟨(scoreString_value_below_1000 _ h1).1, (scoreString_value_below_1000 _ h1).2.1⟩
    · by_cases h2 : s.score < 10000
      · rw [scoreString_four_digits _ (by omega) h2]
        have h := scoreString_value_below_1000 (s.score / 10) (by omega)
        exact ⟨h.1, h.2.1⟩
      · rw [scoreString_five_digits _ (by omega) (by omega)]
        have h := scoreString_value_below_1000 (s.score / 100) (by omega)
        exact ⟨h.1, h.2.1⟩
  refine ⟨htext, hshape.1, hshape.2, ?_, ?_, ?_⟩
  · intro h
    exact ⟨scoreString_below_1000 _ h, (scoreString_value_below_1000 _ h).2.2⟩
  · intro h1 h2
    refine ⟨scoreString_four_digits _ h1 h2, ?_⟩
    rw [scoreString_four_digits _ h1 h2]
    exact (scoreString_value_below_1000 (s.score / 10) (by omega)).2.2
  · intro h1
    refine ⟨scoreString_five_digits _ h1 (by omega), ?_⟩
    rw [scoreString_five_digits _ h1 (by omega)]
    exact (scoreString_value_below_1000 (s.score / 100) (by omega)).2.2

/-- C16 (witness): the game-over state with score 7 renders the text `007`, whose value
is 7. -/
theorem C16_score_text_witness :
    IsUInt16 gameOverWithScore7.score
      ∧ gameOverWithScore7.gameState = GameState.gameOver
      ∧ frameScoreText gameOverWithScore7 = some ['0', '0', '7']
      ∧ decimalValue (scoreString gameOverWithScore7.score) = gameOverWithScore7.score :=
  ⟨by decide, by decide,
    (C16_score_text gameOverWithScore7 (by decide) (Or.inr (by decide))).1.trans (by decide),
    ((C16_score_text gameOverWithScore7 (by decide) (Or.inr (by decide))).2.2.2.1
      (by decide)).2⟩

/-! ## The rows of the player: lemmas -/

theorem movedPlayer_yPos (s : Game) (b : Bool) (hu : IsUInt16 s.player.m_yPos) :
    (movedPlayer s b).m_yPos
      = if b = true then (if s.player.m_yPos > 3 then s.player.m_yPos - 3 else s.player.m_yPos)
        else (if s.player.m_yPos < 111 then s.player.m_yPos + 3 else s.player.m_yPos) := by
  unfold movedPlayer
  cases b
  · simp only [Bool.false_eq_true, if_false]
    exact Player.fall_yPos _
  · simp only [if_true]
    exact Player.fly_yPos _ hu

theorem frame_yPos_rows (rnd : Nat → Nat) (s : Game) (b : Bool)
    (h : s.player.m_yPos % 3 = 2 ∧ 2 ≤ s.player.m_yPos ∧ s.player.m_yPos ≤ 113) :
    (frame rnd s b).player.m_yPos % 3 = 2 ∧ 2 ≤ (frame rnd s b).player.m_yPos
      ∧ (frame rnd s b).player.m_yPos ≤ 113 := by
  unfold frame
  split
  · unfold titleScreenFrame
    split <;> exact h
  · have hu : IsUInt16 s.player.m_yPos := by
      unfold IsUInt16
      omega
    rw [playingFrame_player, movedPlayer_yPos s b hu]
    split <;> split <;> omega
  · unfold gameOverFrame
    split
    · show 47 % 3 = 2 ∧ 2 ≤ 47 ∧ 47 ≤ 113
      decide
    · exact h

theorem Reachable.yPos_rows {rnd : Nat → Nat} {s : Game} (h : Reachable rnd s) :
    s.player.m_yPos % 3 = 2 ∧ 2 ≤ s.player.m_yPos ∧ s.player.m_yPos ≤ 113 := by
  induction h with
  | start =>
    show 47 % 3 = 2 ∧ 2 ≤ 47 ∧ 47 ≤ 113
    decide
  | frame s b _ ih => exact frame_yPos_rows rnd s b ih

theorem PipeGate.update_of_in_flight (rnd : Nat → Nat) (calls : Nat) (g : PipeGate)
    (h1 : -18 ≤ g.m_xOffset) (h2 : g.m_xOffset ≤ 32767) :
    PipeGate.update rnd calls g = (⟨g.m_xOffset - 2, g.m_gateY, g.m_isScored⟩, calls) := by
  have e : toInt16 (g.m_xOffset - 2) = g.m_xOffset - 2 := by
    apply toInt16_of_isInt16
    unfold IsInt16
    omega
  rw [PipeGate.update_eq, e, if_neg (by omega)]

theorem PipeGate.checkInteraction_of_far (g : PipeGate) (p : Player) (hp : p.m_xPos = 20)
    (h1 : 45 < g.m_xOffset) (h2 : g.m_xOffset ≤ 32767) :
    g.checkInteraction p = (PipeInteraction.none, g) := by
  apply PipeGate.checkInteraction_of_miss
  by_contra hm
  have hf : g.horizontalMiss p = false := by simpa using hm
  have hg : IsInt16 g.m_xOffset := by
    unfold IsInt16
    omega
  have := (PipeGate.horizontalMiss_player20 g p hp hg).mp hf
  omega

theorem PipeGate.checkInteraction_of_collision (g : PipeGate) (p : Player)
    (hp : p.m_xPos = 20) (h1 : 0 ≤ g.m_xOffset) (h2 : g.m_xOffset ≤ 45)
    (hv : p.m_yPos < g.m_gateY ∨ p.m_yPos + 17 > g.m_gateY + 45) :
    g.checkInteraction p = (PipeInteraction.colliding, g) := by
  have hg : IsInt16 g.m_xOffset := by
    unfold IsInt16
    omega
  have hm := (PipeGate.horizontalMiss_player20 g p hp hg).mpr ⟨h1, h2⟩
  rw [PipeGate.checkInteraction_eq, hm]
  simp only [Bool.false_eq_true, if_false]
  rw [if_pos hv]

theorem interactions_in_flight (rnd : Nat → Nat) (s : Game) (b : Bool)
    (h1 : -18 ≤ s.pipeGate1.m_xOffset ∧ s.pipeGate1.m_xOffset ≤ 32767)
    (h2 : -18 ≤ s.pipeGate2.m_xOffset ∧ s.pipeGate2.m_xOffset ≤ 32767) :
    interaction1 rnd s b
        = (PipeGate.mk (s.pipeGate1.m_xOffset - 2) s.pipeGate1.m_gateY
            s.pipeGate1.m_isScored).checkInteraction (movedPlayer s b)
      ∧ interaction2 rnd s b
        = (PipeGate.mk (s.pipeGate2.m_xOffset - 2) s.pipeGate2.m_gateY
            s.pipeGate2.m_isScored).checkInteraction (movedPlayer s b) := by
  unfold interaction1 interaction2 updatedGate2 updatedGate1
  rw [PipeGate.update_of_in_flight rnd _ _ h1.1 h1.2,
    PipeGate.update_of_in_flight rnd _ _ h2.1 h2.2]
  exact ⟨rfl, rfl⟩

theorem heldInvariant_frame (rnd : Nat → Nat) (s : Game) (b : Bool) (h : HeldInvariant s)
    (hb : s.gameState ≠ GameState.playing ∨ b = true) : HeldInvariant (frame rnd s b) := by
  obtain ⟨hx, hrel, hlo, hhi, hg2, hgy, hover⟩ := h
  rcases hstate : s.gameState with _ | _ | _
  · -- title screen
    have hne : s.player.m_yPos ≠ 8 := by
      intro h8
      rw [hover h8] at hstate
      exact absurd hstate (by decide)
    rw [frame_titleScreen rnd s b hstate]
    unfold titleScreenFrame
    split
    · exact ⟨hx, hrel, hlo, hhi, hg2, hgy, fun h8 => absurd h8 hne⟩
    · exact ⟨hx, hrel, hlo, hhi, hg2, hgy, hover⟩
  · -- playing
    have hbt : b = true := by
      rcases hb with hb | hb
      · exact absurd hstate hb
      · exact hb
    subst hbt
    have hne : s.player.m_yPos ≠ 8 := by
      intro h8
      rw [hover h8] at hstate
      exact absurd hstate (by decide)
    have hu : IsUInt16 s.player.m_yPos := by
      unfold IsUInt16
      omega
    have hy : (movedPlayer s true).m_yPos = s.player.m_yPos - 3 := by
      rw [movedPlayer_yPos s true hu]
      simp only [if_true]
      rw [if_pos (by omega)]
    have hpx : (movedPlayer s true).m_xPos = 20 := by rw [movedPlayer_xPos, hx]
    have hi := interactions_in_flight rnd s true (by omega) (by omega)
    have hc2 : interaction2 rnd s true
        = (PipeInteraction.none, PipeGate.mk (s.pipeGate2.m_xOffset - 2)
            s.pipeGate2.m_gateY s.pipeGate2.m_isScored) := by
      rw [hi.2]
      exact PipeGate.checkInteraction_of_far _ _ hpx (by show 45 < s.pipeGate2.m_xOffset - 2; omega)
        (by show s.pipeGate2.m_xOffset - 2 ≤ 32767; omega)
    have hx1 : (interaction1 rnd s true).2.m_xOffset = s.pipeGate1.m_xOffset - 2 := by
      rw [hi.1, PipeGate.checkInteraction_xOffset]
    have hy1 : (interaction1 rnd s true).2.m_gateY = s.pipeGate1.m_gateY := by
      rw [hi.1, PipeGate.checkInteraction_gateY]
    rw [frame_playing rnd s true hstate]
    unfold HeldInvariant
    rw [playingFrame_player, playingFrame_pipeGate1, playingFrame_pipeGate2,
      playingFrame_gameState, hpx, hy, hx1, hy1, hc2]
    refine ⟨rfl, by omega, by omega, by omega, by show _ - 2 = _ - 2 + 90; omega, hgy, ?_⟩
    intro h8
    have hc1 : interaction1 rnd s true
        = (PipeInteraction.colliding, PipeGate.mk (s.pipeGate1.m_xOffset - 2)
            s.pipeGate1.m_gateY s.pipeGate1.m_isScored) := by
      rw [hi.1]
      exact PipeGate.checkInteraction_of_collision _ _ hpx
        (by show 0 ≤ s.pipeGate1.m_xOffset - 2; omega)
        (by show s.pipeGate1.m_xOffset - 2 ≤ 45; omega)
        (Or.inl (by rw [hy]; show s.player.m_yPos - 3 < s.pipeGate1.m_gateY; omega))
    rw [hc1]
    simp [gateInteraction, PipeInteraction.toNat]
  · -- game over
    rw [frame_gameOver rnd s b hstate]
    unfold gameOverFrame
    split
    · unfold HeldInvariant
      simp only [PipeGate.reset_eq, toInt16_seventy, toInt16_LCD_WIDTH, Player.reset,
        Player.s_initialYPos]
      exact ⟨hx, by decide, by decide, by decide, by decide, by omega,
        fun h8 => absurd h8 (by decide)⟩
    · exact ⟨hx, hrel, hlo, hhi, hg2, hgy, hover⟩

theorem heldInvariant_start (rnd : Nat → Nat) : HeldInvariant (Game.start rnd) := by
  unfold HeldInvariant Game.start PipeGate.new
  simp only [PipeGate.reset_eq, toInt16_seventy, toInt16_LCD_WIDTH, Player.new,
    Player.s_initialYPos]
  exact ⟨trivial, by decide, by decide, by decide, by decide, by omega,
    fun h8 => absurd h8 (by decide)⟩

theorem heldInvariant_run (rnd : Nat → Nat) (buttons : List Bool) :
    ∀ s : Game, HeldInvariant s → heldWhilePlaying rnd s buttons = true →
      HeldInvariant (run rnd s buttons) := by
  induction buttons with
  | nil =>
    intro s h _
    exact h
  | cons b rest ih =>
    intro s h hb
    simp only [heldWhilePlaying, Bool.and_eq_true, Bool.or_eq_true, decide_eq_true_eq] at hb
    exact ih (frame rnd s b) (heldInvariant_frame rnd s b h hb.1) hb.2

theorem releasedInvariant_frame (rnd : Nat → Nat) (s : Game) (b : Bool)
    (h : ReleasedInvariant s) (hb : s.gameState ≠ GameState.playing ∨ b = false) :
    ReleasedInvariant (frame rnd s b) := by
  obtain ⟨hx, hrel, hlo, hhi, hg2, hgy, hover⟩ := h
  rcases hstate : s.gameState with _ | _ | _
  · -- title screen
    have hne : s.player.m_yPos ≠ 92 := by
      intro h92
      rw [hover h92] at hstate
      exact absurd hstate (by decide)
    rw [frame_titleScreen rnd s b hstate]
    unfold titleScreenFrame
    split
    · exact ⟨hx, hrel, hlo, hhi, hg2, hgy, fun h92 => absurd h92 hne⟩
    · exact ⟨hx, hrel, hlo, hhi, hg2, hgy, hover⟩
  · -- playing
    have hbf : b = false := by
      rcases hb with hb | hb
      · exact absurd hstate hb
      · exact hb
    subst hbf
    have hne : s.player.m_yPos ≠ 92 := by
      intro h92
      rw [hover h92] at hstate
      exact absurd hstate (by decide)
    have hu : IsUInt16 s.player.m_yPos := by
      unfold IsUInt16
      omega
    have hy : (movedPlayer s false).m_yPos = s.player.m_yPos + 3 := by
      rw [movedPlayer_yPos s false hu]
      simp only [Bool.false_eq_true, if_false]
      rw [if_pos (by omega)]
    have hpx : (movedPlayer s false).m_xPos = 20 := by rw [movedPlayer_xPos, hx]
    have hi := interactions_in_flight rnd s false (by omega) (by omega)
    have hc2 : interaction2 rnd s false
        = (PipeInteraction.none, PipeGate.mk (s.pipeGate2.m_xOffset - 2)
            s.pipeGate2.m_gateY s.pipeGate2.m_isScored) := by
      rw [hi.2]
      exact PipeGate.checkInteraction_of_far _ _ hpx (by show 45 < s.pipeGate2.m_xOffset - 2; omega)
        (by show s.pipeGate2.m_xOffset - 2 ≤ 32767; omega)
    have hx1 : (interaction1 rnd s false).2.m_xOffset = s.pipeGate1.m_xOffset - 2 := by
      rw [hi.1, PipeGate.checkInteraction_xOffset]
    have hy1 : (interaction1 rnd s false).2.m_gateY = s.pipeGate1.m_gateY := by
      rw [hi.1, PipeGate.checkInteraction_gateY]
    rw [frame_playing rnd s false hstate]
    unfold ReleasedInvariant
    rw [playingFrame_player, playingFrame_pipeGate1, playingFrame_pipeGate2,
      playingFrame_gameState, hpx, hy, hx1, hy1, hc2]
    refine ⟨rfl, by push_cast; omega, by omega, by omega,
      by show _ - 2 = _ - 2 + 90; omega, hgy, ?_⟩
    intro h92
    have hc1 : interaction1 rnd s false
        = (PipeInteraction.colliding, PipeGate.mk (s.pipeGate1.m_xOffset - 2)
            s.pipeGate1.m_gateY s.pipeGate1.m_isScored) := by
      rw [hi.1]
      exact PipeGate.checkInteraction_of_collision _ _ hpx
        (by show 0 ≤ s.pipeGate1.m_xOffset - 2; omega)
        (by show s.pipeGate1.m_xOffset - 2 ≤ 45; omega)
        (Or.inr (by rw [hy]; show s.player.m_yPos + 3 + 17 > s.pipeGate1.m_gateY + 45; omega))
    rw [hc1]
    simp [gateInteraction, PipeInteraction.toNat]
  · -- game over
    rw [frame_gameOver rnd s b hstate]
    unfold gameOverFrame
    split
    · unfold ReleasedInvariant
      simp only [PipeGate.reset_eq, toInt16_seventy, toInt16_LCD_WIDTH, Player.reset,
        Player.s_initialYPos]
      exact ⟨hx, by decide, by decide, by decide, by decide, by omega,
        fun h92 => absurd h92 (by decide)⟩
    · exact ⟨hx, hrel, hlo, hhi, hg2, hgy, hover⟩

theorem releasedInvariant_start (rnd : Nat → Nat) : ReleasedInvariant (Game.start rnd) := by
  unfold ReleasedInvariant Game.start PipeGate.new
  simp only [PipeGate.reset_eq, toInt16_seventy, toInt16_LCD_WIDTH, Player.new,
    Player.s_initialYPos]
  exact ⟨trivial, by decide, by decide, by decide, by decide, by omega,
    fun h92 => absurd h92 (by decide)⟩

theorem releasedInvariant_run (rnd : Nat → Nat) (buttons : List Bool) :
    ∀ s : Game, ReleasedInvariant s → releasedWhilePlaying rnd s buttons = true →
      ReleasedInvariant (run rnd s buttons) := by
  induction buttons with
  | nil =>
    intro s h _
    exact h
  | cons b rest ih =>
    intro s h hb
    simp only [releasedWhilePlaying, Bool.and_eq_true, Bool.or_eq_true, decide_eq_true_eq,
      Bool.not_eq_true'] at hb
    exact ih (frame rnd s b) (releasedInvariant_frame rnd s b h hb.1) hb.2

/-! ## C19: the rows of the player -/

/-- C19 (counterexample): whatever the random draws, a button sequence in which the button
is pressed in every playing frame never brings the player above row 8, and one in which it
is released in every playing frame never brings it below row 92: the first gate ends the
game before the extreme is reached. With every draw equal to 43, holding the button for 14
frames ends in game over at row 8, and pressing once and releasing for 15 frames ends in
game over at row 92. -/
theorem C19_counterexample_first_gate_ends_game :
    (∀ (rnd : Nat → Nat) (buttons : List Bool),
        heldWhilePlaying rnd (Game.start rnd) buttons = true →
          8 ≤ (run rnd (Game.start rnd) buttons).player.m_yPos)
      ∧ (∀ (rnd : Nat → Nat) (buttons : List Bool),
        releasedWhilePlaying rnd (Game.start rnd) buttons = true →
          (run rnd (Game.start rnd) buttons).player.m_yPos ≤ 92)
      ∧ heldWhilePlaying lowGaps (Game.start lowGaps) (List.replicate 14 true) = true
      ∧ (run lowGaps (Game.start lowGaps) (List.replicate 14 true)).gameState
          = GameState.gameOver
      ∧ (run lowGaps (Game.start lowGaps) (List.replicate 14 true)).player.m_yPos = 8
      ∧ releasedWhilePlaying lowGaps (Game.start lowGaps) (pressThenRelease 15) = true
      ∧ (run lowGaps (Game.start lowGaps) (pressThenRelease 15)).gameState
          = GameState.gameOver
      ∧ (run lowGaps (Game.start lowGaps) (pressThenRelease 15)).player.m_yPos = 92 :=
  ⟨fun rnd buttons h =>
      (heldInvariant_run rnd buttons _ (heldInvariant_start rnd) h).2.2.1,
    fun rnd buttons h =>
      (releasedInvariant_run rnd buttons _ (releasedInvariant_start rnd) h).2.2.2.1,
    by decide, by decide, by decide, by decide, by decide, by decide⟩

/-- C19 (amended): in every state reachable from the initial state the player's `m_yPos`
is congruent to 2 modulo 3 and lies in `[2, 113]`. Both extremes are reached: row 2 by
hovering through the first gate (gap at 20) and then holding the button for 14 playing
frames, row 113 by hovering through the first gate (gap at 63) and then releasing the
button for 9 playing frames. Holding the button in every playing frame keeps
`m_yPos ≥ 8`, and releasing it in every playing frame keeps `m_yPos ≤ 92`: either way the
first gate ends the game. -/
theorem C19_yPos_rows (rnd : Nat → Nat) (s : Game) (hr : Reachable rnd s) :
    s.player.m_yPos % 3 = 2
      ∧ 2 ≤ s.player.m_yPos
      ∧ s.player.m_yPos ≤ 113
      ∧ (Reachable highGaps (run highGaps (Game.start highGaps) climbToCeiling)
          ∧ climbToCeiling = (true :: alternate 35) ++ List.replicate 14 true
          ∧ (run highGaps (Game.start highGaps) (true :: alternate 35)).gameState
              = GameState.playing
          ∧ (run highGaps (Game.start highGaps) (true :: alternate 35)).player.m_yPos = 44
          ∧ (run highGaps (Game.start highGaps) climbToCeiling).gameState
              = GameState.playing
          ∧ (run highGaps (Game.start highGaps) climbToCeiling).player.m_yPos = 2)
      ∧ (Reachable lowGaps (run lowGaps (Game.start lowGaps) fallToFloor)
          ∧ fallToFloor = (pressThenRelease 14 ++ alternate 21) ++ List.replicate 9 false
          ∧ (run lowGaps (Game.start lowGaps) (pressThenRelease 14 ++ alternate 21)).gameState
              = GameState.playing
          ∧ (run lowGaps (Game.start lowGaps)
              (pressThenRelease 14 ++ alternate 21)).player.m_yPos = 86
          ∧ (run lowGaps (Game.start lowGaps) fallToFloor).gameState = GameState.playing
          ∧ (run lowGaps (Game.start lowGaps) fallToFloor).player.m_yPos = 113)
      ∧ (∀ buttons : List Bool, heldWhilePlaying rnd (Game.start rnd) buttons = true →
          8 ≤ (run rnd (Game.start rnd) buttons).player.m_yPos)
      ∧ (∀ buttons : List Bool, releasedWhilePlaying rnd (Game.start rnd) buttons = true →
          (run rnd (Game.start rnd) buttons).player.m_yPos ≤ 92) :=
  ⟨hr.yPos_rows.1, hr.yPos_rows.2.1, hr.yPos_rows.2.2,
    ⟨Reachable.start.run climbToCeiling, by decide, by decide, by decide, by decide,
      by decide⟩,
    ⟨Reachable.start.run fallToFloor, by decide, by decide, by decide, by decide,
      by decide⟩,
    fun buttons h => (heldInvariant_run rnd buttons _ (heldInvariant_start rnd) h).2.2.1,
    fun buttons h =>
      (releasedInvariant_run rnd buttons _ (releasedInvariant_start rnd) h).2.2.2.1⟩

/-- C19 (witness): after hovering for 12 frames with every gap at 40 the player is at row
47, which is congruent to 2 modulo 3. -/
theorem C19_yPos_rows_witness :
    (run midGaps (Game.start midGaps) hoverToGate).player.m_yPos = 47
      ∧ (run midGaps (Game.start midGaps) hoverToGate).player.m_yPos % 3 = 2 :=
  ⟨by decide,
    (C19_yPos_rows midGaps (run midGaps (Game.start midGaps) hoverToGate)
      (Reachable.start.run hoverToGate)).1⟩

/-! ## C20: the point is awarded on entry -/

/-- C20: with every random draw equal to 20 the first gate has its gap at 40. After the
frames `hoverToGate` the game is playing with score 0; in the next frame, with the button
released, the first gate reaches the player (offset 44), returns `passingThrough` and the
score becomes 1. With the button released for six more frames the gate, still over the
player (offset 32), is scored and has not been reset (the random source has been called
only by the two constructors); in the next frame it returns `colliding` at offset 30 and
the game is over with score 1. -/
theorem C20_point_awarded_on_entry :
    Reachable midGaps
        (run midGaps (Game.start midGaps) (hoverToGate ++ List.replicate 8 false))
      ∧ (Game.start midGaps).pipeGate1.m_gateY = 40
      ∧ (Game.start midGaps).randCalls = 2
      ∧ (run midGaps (Game.start midGaps) hoverToGate).gameState = GameState.playing
      ∧ (run midGaps (Game.start midGaps) hoverToGate).score = 0
      ∧ (run midGaps (Game.start midGaps) hoverToGate).pipeGate1 = PipeGate.mk 46 40 false
      ∧ (interaction1 midGaps (run midGaps (Game.start midGaps) hoverToGate) false).1
          = PipeInteraction.passingThrough
      ∧ (frame midGaps (run midGaps (Game.start midGaps) hoverToGate) false).score = 1
      ∧ (frame midGaps (run midGaps (Game.start midGaps) hoverToGate) false).pipeGate1
          = PipeGate.mk 44 40 true
      ∧ (run midGaps (Game.start midGaps) (hoverToGate ++ List.replicate 7 false)).gameState
          = GameState.playing
      ∧ (run midGaps (Game.start midGaps) (hoverToGate ++ List.replicate 7 false)).score = 1
      ∧ (run midGaps (Game.start midGaps) (hoverToGate ++ List.replicate 7 false)).pipeGate1
          = PipeGate.mk 32 40 true
      ∧ (run midGaps (Game.start midGaps) (hoverToGate ++ List.replicate 7 false)).randCalls
          = 2
      ∧ (interaction1 midGaps
          (run midGaps (Game.start midGaps) (hoverToGate ++ List.replicate 7 false)) false).1
          = PipeInteraction.colliding
      ∧ (run midGaps (Game.start midGaps) (hoverToGate ++ List.replicate 8 false)).gameState
          = GameState.gameOver
      ∧ (run midGaps (Game.start midGaps) (hoverToGate ++ List.replicate 8 false)).score = 1
      ∧ (run midGaps (Game.start midGaps) (hoverToGate ++ List.replicate 8 false)).pipeGate1
          = PipeGate.mk 30 40 true :=
  ⟨Reachable.start.run _, by decide⟩

end FlappyBird
